import Mathlib

/-!
# SwapBook front-end: wallet context and order API

A shallow embedding of `Frontend_Service/src/context/Web3Context.jsx` and
`Frontend_Service/src/utils/api.js`.

* JavaScript strings that are inspected character by character (decimal amounts)
  are lists of characters; messages and labels are `String`.
* `BigNumber` values are unbounded integers (`Int`, or `Nat` for `uint256` results).
* Remote collaborators (token contract, order-book contract, wallet, HTTP
  transport) are oracles: records of the result each call resolves or rejects with.
* An asynchronous operation is a pair of its outcome (`Except JsError _`) and the
  list of external calls it issued, in program order.
* `console.log` lines are not modelled; `console.error` lines are recorded, since
  they are the only thing a handler does besides rethrowing.
-/

namespace SwapBook

/-! ## Errors -/

/-- A JavaScript error value: its `message`, the optional `data` member read by the
escrow handler, and the optional HTTP `response` (status, body) carried by a
transport error. -/
structure JsError where
  message : String
  data : Option String
  response : Option (Nat × String)
deriving DecidableEq, Repr

/-- The value of `new Error(message)`. -/
def newError (message : String) : JsError :=
  { message := message, data := none, response := none }

instance instDecidableEqExcept {ε α : Type} [DecidableEq ε] [DecidableEq α] :
    DecidableEq (Except ε α)
  | .ok a, .ok b =>
    if h : a = b then isTrue (by rw [h]) else isFalse (fun h2 => by cases h2; exact h rfl)
  | .error a, .error b =>
    if h : a = b then isTrue (by rw [h]) else isFalse (fun h2 => by cases h2; exact h rfl)
  | .ok _, .error _ => isFalse (fun h => by cases h)
  | .error _, .ok _ => isFalse (fun h => by cases h)

/-! ## Decimal conversions of the `ethers` v5 dependency

`escrowFunds` calls `ethers.utils.parseUnits` and `getEscrowBalance` calls
`ethers.utils.formatUnits`.  Both are thin wrappers of `parseFixed` / `formatFixed`
of `@ethersproject/bignumber` (fixednumber.ts, v5.7), transcribed here. -/

/-- The helper `getMultiplier(decimals)`: the string "1" followed by `decimals`
zeros, for `0 ≤ decimals ≤ 256`; any other size throws. -/
def getMultiplier (decimals : Nat) : Except JsError (List Char) :=
  if decimals ≤ 256 then .ok ('1' :: List.replicate decimals '0')
  else .error (newError "invalid decimal size")

/-- The value of `BigNumber.from(s)` for a string of decimal digits (leading zeros
allowed, arbitrary length). -/
def bigNumberFrom (s : List Char) : Nat :=
  s.foldl (fun acc c => 10 * acc + (c.toNat - 48)) 0

/-- The value of `value.split(".")`. -/
def split : List Char → List (List Char)
  | [] => [[]]
  | c :: cs =>
    if c = '.' then [] :: split cs
    else match split cs with
      | [] => [[c]]
      | h :: t => (c :: h) :: t

/-- The loop `while (fraction[fraction.length - 1] === "0") fraction = fraction.substring(0, fraction.length - 1)`. -/
def trimTrailingZeros (fraction : List Char) : List Char :=
  (fraction.reverse.dropWhile (fun c => c == '0')).reverse

/-- The loop `while (fraction.length < n) fraction += "0"`. -/
def padEnd (fraction : List Char) (n : Nat) : List Char :=
  fraction ++ List.replicate (n - fraction.length) '0'

/-- The loop `while (fraction.length < n) fraction = "0" + fraction`. -/
def padStart (fraction : List Char) (n : Nat) : List Char :=
  List.replicate (n - fraction.length) '0' ++ fraction

/-- The test `value.match(/^-?[0-9.]+$/)`: an optional minus sign followed by one or
more characters, each a digit or a dot. -/
def matchesDecimal (value : List Char) : Bool :=
  let body := match value with
    | '-' :: rest => rest
    | _ => value
  !body.isEmpty && body.all (fun c => c.isDigit || c == '.')

/-- The function `parseFixed(value, decimals)` of ethers v5. -/
def parseFixed (value : List Char) (decimals : Nat) : Except JsError Int :=
  match getMultiplier decimals with
  | .error e => .error e
  | .ok multiplier =>
    if !matchesDecimal value then .error (newError "invalid decimal value") else
    let negative := value.head? == some '-'
    let value := if negative then value.drop 1 else value
    if value = ['.'] then .error (newError "missing value") else
    let comps := split value
    if comps.length > 2 then .error (newError "too many decimal points") else
    let whole := comps.getD 0 []
    let fraction := comps.getD 1 []
    let whole := if whole.isEmpty then ['0'] else whole
    let fraction := if fraction.isEmpty then ['0'] else fraction
    let fraction := trimTrailingZeros fraction
    if fraction.length > multiplier.length - 1 then
      .error (newError "fractional component exceeds decimals") else
    let fraction := if fraction.isEmpty then ['0'] else fraction
    let fraction := padEnd fraction (multiplier.length - 1)
    let wholeValue : Int := bigNumberFrom whole
    let fractionValue : Int := bigNumberFrom fraction
    let wei := wholeValue * (bigNumberFrom multiplier : Int) + fractionValue
    .ok (if negative then wei * (-1) else wei)

/-- The first group of `fraction.match(/^([0-9]*[1-9]|0)(0*)/)` on a string of
digits: the prefix up to the last non-zero digit, or the first character when
every digit is zero. -/
def stripFraction (fraction : List Char) : List Char :=
  let t := trimTrailingZeros fraction
  if t.isEmpty then fraction.take 1 else t

/-- The function `formatFixed(value, decimals)` of ethers v5; `Nat.toDigits 10` is
`BigNumber.prototype.toString` on a non-negative value. -/
def formatFixed (value : Int) (decimals : Nat) : Except JsError (List Char) :=
  match getMultiplier decimals with
  | .error e => .error e
  | .ok multiplier =>
    let negative := decide (value < 0)
    let value : Nat := (if negative then value * (-1) else value).toNat
    let fraction := Nat.toDigits 10 (value % bigNumberFrom multiplier)
    let fraction := padStart fraction (multiplier.length - 1)
    let fraction := stripFraction fraction
    let whole := Nat.toDigits 10 (value / bigNumberFrom multiplier)
    let value := if multiplier.length = 1 then whole else whole ++ '.' :: fraction
    .ok (if negative then '-' :: value else value)

/-- The call `ethers.utils.parseUnits(value, decimals)` with a numeric unit. -/
def parseUnits (value : List Char) (unitName : Nat) : Except JsError Int :=
  parseFixed value unitName

/-- The call `ethers.utils.formatUnits(value, decimals)` with a numeric unit. -/
def formatUnits (value : Int) (unitName : Nat) : Except JsError (List Char) :=
  formatFixed value unitName

/-! ## Decimal numerals (the reading of a decimal string as a number) -/

/-- The part of a numeral after its optional minus sign. -/
def unsignedPart : List Char → List Char
  | '-' :: rest => rest
  | s => s

/-- The digits before the decimal point. -/
def wholeDigits (s : List Char) : List Char :=
  (unsignedPart s).takeWhile (fun c => c != '.')

/-- The digits after the decimal point (empty when there is no point). -/
def fractionDigits (s : List Char) : List Char :=
  ((unsignedPart s).dropWhile (fun c => c != '.')).drop 1

/-- A decimal numeral as a person types it: an optional minus sign, then digits with
at most one decimal point and at least one digit. -/
def isDecimalNumeral (s : List Char) : Bool :=
  (wholeDigits s).all Char.isDigit && (fractionDigits s).all Char.isDigit &&
    (!(wholeDigits s).isEmpty || !(fractionDigits s).isEmpty)

/-- The rational number a decimal numeral denotes. -/
def decimalValue (s : List Char) : ℚ :=
  let v : ℚ := (bigNumberFrom (wholeDigits s) : ℚ) +
    (bigNumberFrom (fractionDigits s) : ℚ) / (10 : ℚ) ^ (fractionDigits s).length
  if s.head? == some '-' then -v else v

/-! ## Asynchronous operations -/

/-- An asynchronous operation that has run to completion: how it settled (resolved
with a value or rejected with an error) and the external calls and console errors
it issued, in program order. -/
def Op (E α : Type) : Type := Except JsError α × List E

namespace Op

/-- An operation that resolves at once. -/
def pure {E α : Type} (a : α) : Op E α := (.ok a, [])

/-- Sequencing: the continuation runs only when the first part resolved. -/
def bind {E α β : Type} (x : Op E α) (f : α → Op E β) : Op E β :=
  match x with
  | (.error e, tr) => (.error e, tr)
  | (.ok a, tr) => ((f a).1, tr ++ (f a).2)

/-- The statement `throw e`. -/
def throw {E α : Type} (e : JsError) : Op E α := (.error e, [])

/-- A local (library) computation that returns or throws, issuing no call. -/
def lift {E α : Type} (r : Except JsError α) : Op E α := (r, [])

/-- An awaited external call: it is recorded, and settles the way the oracle says. -/
def call {E α : Type} (ev : E) (r : Except JsError α) : Op E α := (r, [ev])

/-- An effect that cannot fail (a console line, a state setter). -/
def emit {E : Type} (ev : E) : Op E Unit := (.ok (), [ev])

/-- The statement `try x catch (error) handler`. -/
def tryCatch {E α : Type} (x : Op E α) (handler : JsError → Op E α) : Op E α :=
  match x with
  | (.error e, tr) => ((handler e).1, tr ++ (handler e).2)
  | (.ok a, tr) => (.ok a, tr)

/-- The statement `try x finally fin`, for a `fin` that does not throw. -/
def tryFinally {E α : Type} (x : Op E α) (fin : List E) : Op E α :=
  (x.1, x.2 ++ fin)

end Op

instance instMonadOp {E : Type} : Monad (Op E) where
  pure := Op.pure
  bind := Op.bind

instance instDecidableEqOp {E α : Type} [DecidableEq E] [DecidableEq α] : DecidableEq (Op E α) :=
  inferInstanceAs (DecidableEq (Except JsError α × List E))

/-! ## Session state of `Web3Provider` -/

/-- An account or contract address. -/
abbrev Address := String

/-- The ethers provider object returned by `useProvider()`. -/
structure Provider where
  id : Nat
deriving DecidableEq, Repr

/-- The handle of `new ethers.Contract(address, abi, provider.getSigner())`. -/
structure Contract where
  address : Address
  signer : Provider
deriving DecidableEq, Repr

/-- A submitted transaction (the object whose `wait()` is awaited). -/
structure Tx where
  hash : Nat
deriving DecidableEq, Repr

/-- A transaction receipt. -/
structure Receipt where
  blockNumber : Nat
deriving DecidableEq, Repr

/-- The constants read from `config.js`, which is not part of the sources. -/
structure Config where
  CHAIN_ID : Nat
  P2P_ORDERBOOK_ADDRESS : Address
deriving DecidableEq, Repr

/-- The values one render of `Web3Provider` sees, and every closure created in that
render captures: the connector hooks (`chainId`, `accounts`, `isActive`, `provider`)
and the component state (`account`, `loading`, `orderBookContract`, `networkError`). -/
structure Session where
  chainId : Option Nat
  accounts : Option (List Address)
  isActive : Bool
  provider : Option Provider
  account : Option Address
  loading : Bool
  orderBookContract : Option Contract
  networkError : String
deriving DecidableEq, Repr

/-- The token contract, the order-book contract and the chain, as oracles: what each
call resolves or rejects with. -/
structure Ledger where
  decimals : Address → Except JsError Nat
  balanceOf : Address → Option Address → Except JsError Nat
  approve : Address → Address → Int → Except JsError Tx
  escrow : Address → Int → Except JsError Tx
  wait : Tx → Except JsError Receipt
  escrowedFunds : Option Address → Address → Except JsError (Option Nat)

/-- The MetaMask connector as an oracle. -/
structure WalletConnector where
  activate : Except JsError Unit
  resetState : Except JsError Unit

/-- What the operations of the context issue. -/
inductive Event where
  | decimals (token : Address)
  | balanceOf (token : Address) (owner : Option Address)
  | approve (token spender : Address) (amount : Int)
  | escrow (token : Address) (amount : Int)
  | wait (tx : Tx)
  | escrowedFunds (account : Option Address) (token : Address)
  | activate
  | resetState
  | setLoading (value : Bool)
  | consoleError (label : String) (error : JsError)
  | consoleErrorData (data : String)
deriving DecidableEq, Repr

/-- Whether an event submits a ledger transaction. -/
def Event.isTransaction : Event → Bool
  | .approve _ _ _ => true
  | .escrow _ _ => true
  | _ => false

/-- The call `provider.getSigner()`: a `TypeError` when `provider` is undefined. -/
def getSigner (provider : Option Provider) : Except JsError Provider :=
  match provider with
  | some p => .ok p
  | none => .error (newError "TypeError: provider is undefined")

/-- The `catch` block of `escrowFunds`: log, log `error.data` when truthy, rethrow. -/
def escrowCatch (error : JsError) : Op Event Receipt := do
  Op.emit (.consoleError "Error in escrow transaction:" error)
  match error.data with
  | some d => if d ≠ "" then Op.emit (.consoleErrorData d) else Op.pure ()
  | none => Op.pure ()
  Op.throw error

/-- The `try` block of `escrowFunds`. -/
def escrowTry (cfg : Config) (s : Session) (L : Ledger) (tokenAddress : Address)
    (amount : List Char) : Op Event Receipt := do
  let _signer ← Op.lift (getSigner s.provider)
  let decimals ← Op.call (.decimals tokenAddress) (L.decimals tokenAddress)
  let amountInWei ← Op.lift (parseUnits amount decimals)
  let balance ← Op.call (.balanceOf tokenAddress s.account) (L.balanceOf tokenAddress s.account)
  let _shown ← Op.lift (formatUnits (balance : Int) decimals)
  if (balance : Int) < amountInWei then Op.throw (newError "Insufficient balance") else
  let approveTx ← Op.call (.approve tokenAddress cfg.P2P_ORDERBOOK_ADDRESS amountInWei)
    (L.approve tokenAddress cfg.P2P_ORDERBOOK_ADDRESS amountInWei)
  let _approved ← Op.call (.wait approveTx) (L.wait approveTx)
  let tx ← Op.call (.escrow tokenAddress amountInWei) (L.escrow tokenAddress amountInWei)
  let receipt ← Op.call (.wait tx) (L.wait tx)
  Op.pure receipt

/-- The function `escrowFunds(tokenAddress, amount)`; `amount` is given as the text
`amount.toString()` yields.  The result `none` is the `null` of the guard. -/
def escrowFunds (cfg : Config) (s : Session) (L : Ledger) (tokenAddress : Address)
    (amount : List Char) : Op Event (Option Receipt) :=
  if s.orderBookContract.isNone || !s.isActive then Op.pure none else
  Op.bind (Op.tryCatch (escrowTry cfg s L tokenAddress amount) escrowCatch)
    (fun receipt => Op.pure (some receipt))

/-- The `try` block of `getEscrowBalance`; `escrowedFunds || '0'` is `getD 0`. -/
def balanceTry (s : Session) (L : Ledger) (tokenAddress : Address) : Op Event (List Char) := do
  let _signer ← Op.lift (getSigner s.provider)
  let escrowedFunds ← Op.call (.escrowedFunds s.account tokenAddress)
    (L.escrowedFunds s.account tokenAddress)
  let decimals ← Op.call (.decimals tokenAddress) (L.decimals tokenAddress)
  let formattedBalance ← Op.lift (formatUnits ((escrowedFunds.getD 0 : Nat) : Int) decimals)
  Op.pure formattedBalance

/-- The `catch` block of `getEscrowBalance`: log and rethrow. -/
def balanceCatch (error : JsError) : Op Event (List Char) := do
  Op.emit (.consoleError "Error fetching escrow balance:" error)
  Op.throw error

/-- The function `getEscrowBalance(tokenAddress)`. -/
def getEscrowBalance (s : Session) (L : Ledger) (tokenAddress : Address) :
    Op Event (Option (List Char)) :=
  if s.orderBookContract.isNone || !s.isActive then Op.pure none else
  Op.bind (Op.tryCatch (balanceTry s L tokenAddress) balanceCatch)
    (fun formattedBalance => Op.pure (some formattedBalance))

/-- The function `connectWallet()`: the error of `metaMask.activate()` is logged in the
`catch` block, which does not rethrow. -/
def connectWallet (W : WalletConnector) : Op Event Unit :=
  Op.tryFinally
    (Op.tryCatch
      (do Op.emit (.setLoading true); Op.call .activate W.activate)
      (fun error => Op.emit (.consoleError "Error connecting wallet:" error)))
    [.setLoading false]

/-- The function `disconnectWallet()`: the error of `metaMask.resetState()` is logged in
the `catch` block, which does not rethrow. -/
def disconnectWallet (W : WalletConnector) : Op Event Unit :=
  Op.tryCatch (Op.call .resetState W.resetState)
    (fun error => Op.emit (.consoleError "Error disconnecting wallet:" error))

/-- A connected session: the wallet is active, the order-book contract handle exists,
and the provider it was built from is present. -/
def Session.connected (s : Session) : Bool :=
  s.orderBookContract.isSome && s.isActive && s.provider.isSome

/-! ## One `escrowFunds` call, suspension point by suspension point

An `async` function runs until its next `await` and is resumed when the awaited
call settles.  Everything it reads between two suspensions (`account`, `provider`,
`orderBookContract`) is a `const` of the render in which the function was created. -/

/-- The suspension points of `escrowFunds`, with the locals that are live there. -/
inductive Stage where
  | awaitDecimals
  | awaitBalance (decimals : Nat) (amountInWei : Int)
  | awaitApprove (amountInWei : Int)
  | awaitApproveWait (amountInWei : Int) (approveTx : Tx)
  | awaitEscrow (amountInWei : Int)
  | awaitEscrowWait (tx : Tx)
  | done (result : Except JsError (Option Receipt))
deriving DecidableEq

/-- An escrow call in flight: the render values its closure captured, its arguments,
where it is suspended, and what it has issued so far. -/
structure EscrowIntent where
  closure : Session
  tokenAddress : Address
  amount : List Char
  stage : Stage
  trace : List Event
deriving DecidableEq

/-- Control reaches the `catch` block with `error`: log and reject. -/
def EscrowIntent.fail (i : EscrowIntent) (error : JsError) : EscrowIntent :=
  { i with stage := .done (.error error), trace := i.trace ++ (escrowCatch error).2 }

/-- Suspend on the next awaited call `ev`. -/
def EscrowIntent.suspend (i : EscrowIntent) (stage : Stage) (ev : Event) : EscrowIntent :=
  { i with stage := stage, trace := i.trace ++ [ev] }

/-- The synchronous prefix of `escrowFunds`, up to its first `await`. -/
def startEscrow (s : Session) (tokenAddress : Address) (amount : List Char) : EscrowIntent :=
  let i : EscrowIntent :=
    { closure := s, tokenAddress := tokenAddress, amount := amount,
      stage := .done (.ok none), trace := [] }
  if s.orderBookContract.isNone || !s.isActive then i else
  match getSigner s.provider with
  | .error e => i.fail e
  | .ok _ => i.suspend .awaitDecimals (.decimals tokenAddress)

/-- Resume a suspended call with what the ledger answers, up to the next `await`. -/
def resumeEscrow (cfg : Config) (L : Ledger) (i : EscrowIntent) : EscrowIntent :=
  match i.stage with
  | .awaitDecimals =>
    match L.decimals i.tokenAddress with
    | .error e => i.fail e
    | .ok decimals =>
      match parseUnits i.amount decimals with
      | .error e => i.fail e
      | .ok amountInWei =>
        i.suspend (.awaitBalance decimals amountInWei)
          (.balanceOf i.tokenAddress i.closure.account)
  | .awaitBalance decimals amountInWei =>
    match L.balanceOf i.tokenAddress i.closure.account with
    | .error e => i.fail e
    | .ok balance =>
      match formatUnits (balance : Int) decimals with
      | .error e => i.fail e
      | .ok _ =>
        if (balance : Int) < amountInWei then i.fail (newError "Insufficient balance")
        else i.suspend (.awaitApprove amountInWei)
          (.approve i.tokenAddress cfg.P2P_ORDERBOOK_ADDRESS amountInWei)
  | .awaitApprove amountInWei =>
    match L.approve i.tokenAddress cfg.P2P_ORDERBOOK_ADDRESS amountInWei with
    | .error e => i.fail e
    | .ok approveTx => i.suspend (.awaitApproveWait amountInWei approveTx) (.wait approveTx)
  | .awaitApproveWait amountInWei approveTx =>
    match L.wait approveTx with
    | .error e => i.fail e
    | .ok _ => i.suspend (.awaitEscrow amountInWei) (.escrow i.tokenAddress amountInWei)
  | .awaitEscrow amountInWei =>
    match L.escrow i.tokenAddress amountInWei with
    | .error e => i.fail e
    | .ok tx => i.suspend (.awaitEscrowWait tx) (.wait tx)
  | .awaitEscrowWait tx =>
    match L.wait tx with
    | .error e => i.fail e
    | .ok receipt => { i with stage := .done (.ok (some receipt)) }
  | .done _ => i

/-- The state the connector store is reset to by `metaMask.resetState()`. -/
def resetHooks (s : Session) : Session :=
  { s with chainId := none, accounts := none, isActive := false, provider := none }

/-- The `accountsChanged` listener registered on `window.ethereum`, preceded by the
connector updating its own `accounts` store.  It only calls state setters of the
provider component. -/
def accountsChanged (cfg : Config) (accounts : List Address) (s : Session) : Session :=
  match accounts with
  | newAccount :: _ =>
    let s := { s with accounts := some accounts, account := some newAccount }
    match s.provider with
    | some p => { s with orderBookContract := some ⟨cfg.P2P_ORDERBOOK_ADDRESS, p⟩ }
    | none => s
  | [] => resetHooks { s with account := none, orderBookContract := none }

/-- The provider component together with at most one escrow call in flight. -/
structure Machine where
  session : Session
  pending : Option EscrowIntent
deriving DecidableEq

/-- What can happen next: the awaited ledger call settles, or the wallet reports
another account. -/
inductive Step where
  | resume
  | accountsChanged (accounts : List Address)
deriving DecidableEq

/-- One step of the machine. -/
def Machine.step (cfg : Config) (L : Ledger) (m : Machine) : Step → Machine
  | .resume => { m with pending := m.pending.map (resumeEscrow cfg L) }
  | .accountsChanged accounts => { m with session := accountsChanged cfg accounts m.session }

/-- A run of the machine. -/
def Machine.run (cfg : Config) (L : Ledger) (m : Machine) (steps : List Step) : Machine :=
  steps.foldl (Machine.step cfg L) m

/-- The machine right after `escrowFunds(tokenAddress, amount)` was called in the
render `s`. -/
def Machine.call (s : Session) (tokenAddress : Address) (amount : List Char) : Machine :=
  { session := s, pending := some (startEscrow s tokenAddress amount) }

/-! ## The effects of `Web3Provider` -/

/-- The state of a freshly mounted provider: no wallet, `useState` initial values. -/
def initialSession : Session :=
  { chainId := none, accounts := none, isActive := false, provider := none,
    account := none, loading := false, orderBookContract := none, networkError := "" }

/-- JavaScript truthiness of `account`. -/
def truthy (account : Option Address) : Bool :=
  match account with
  | some a => a != ""
  | none => false

/-- The advisory text set on a network mismatch. -/
def networkMessage (cfg : Config) : String :=
  "Please connect to Polygon Amoy (Chain ID: " ++ toString cfg.CHAIN_ID ++ ")"

/-- The effect with dependencies `[isActive, provider, account]`: `r` is the render
whose values the effect closes over, `st` the state its setters update. -/
def contractInitEffect (cfg : Config) (r st : Session) : Session :=
  if r.isActive && r.provider.isSome && truthy r.account then
    match getSigner r.provider with
    | .ok signer =>
      { st with orderBookContract := some ⟨cfg.P2P_ORDERBOOK_ADDRESS, signer⟩,
                networkError := "" }
    | .error _ => { st with orderBookContract := none }
  else { st with orderBookContract := none }

/-- The effect with dependencies `[isActive, chainId]`. -/
def networkCheckEffect (cfg : Config) (r st : Session) : Session :=
  if r.isActive && r.chainId != some cfg.CHAIN_ID then
    { st with networkError := networkMessage cfg }
  else { st with networkError := "" }

/-- The effect with dependencies `[accounts]`. -/
def accountSyncEffect (r st : Session) : Session :=
  { st with account := match r.accounts with
                       | some accs => accs.head?
                       | none => none }

/-- Whether a dependency changed since the previous commit (always on mount). -/
def depsChanged {α : Type} [DecidableEq α] (prev : Option Session) (r : Session)
    (deps : Session → α) : Bool :=
  match prev with
  | none => true
  | some p => deps p != deps r

/-- One commit: the effects whose dependencies changed run in source order, each
closing over the render `r`; their setters accumulate into the next state. -/
def commitEffects (cfg : Config) (prev : Option Session) (r : Session) : Session :=
  let st := r
  let st := if depsChanged prev r (fun s => (s.isActive, s.provider, s.account))
    then contractInitEffect cfg r st else st
  let st := if depsChanged prev r (fun s => (s.isActive, s.chainId))
    then networkCheckEffect cfg r st else st
  let st := if depsChanged prev r (fun s => s.accounts)
    then accountSyncEffect r st else st
  st

/-- The provider between events: the last committed render and the current values. -/
structure Rendered where
  prev : Option Session
  cur : Session
deriving DecidableEq

/-- Render and commit until the effects change nothing (at most `fuel` renders). -/
def settle (cfg : Config) : Nat → Rendered → Rendered
  | 0, x => x
  | fuel + 1, x =>
    let next := commitEffects cfg x.prev x.cur
    if next = x.cur then { prev := some x.cur, cur := x.cur }
    else settle cfg fuel { prev := some x.cur, cur := next }

/-- Whether the effects have settled: another render would change nothing. -/
def Rendered.settled (cfg : Config) (x : Rendered) : Bool :=
  x.prev == some x.cur && commitEffects cfg x.prev x.cur == x.cur

/-- The wallet events the provider reacts to. -/
inductive WalletEvent where
  | activated (chainId : Nat) (accounts : List Address) (provider : Provider)
  | accountsChanged (accounts : List Address)
  | chainChanged
deriving DecidableEq

/-- The number of renders allowed for settling. -/
def settleFuel : Nat := 8

/-- The provider after one wallet event and the renders it causes.  A chain change
reloads the page (`window.location.reload()`), which remounts the provider. -/
def afterEvent (cfg : Config) (x : Rendered) : WalletEvent → Rendered
  | .activated chainId accounts provider =>
    settle cfg settleFuel
      { x with cur := { x.cur with chainId := some chainId, accounts := some accounts,
                                   isActive := true, provider := some provider } }
  | .accountsChanged accounts =>
    settle cfg settleFuel { x with cur := accountsChanged cfg accounts x.cur }
  | .chainChanged => settle cfg settleFuel { prev := none, cur := initialSession }

/-- The provider after mounting and a sequence of wallet events. -/
def afterEvents (cfg : Config) (events : List WalletEvent) : Rendered :=
  events.foldl (afterEvent cfg) (settle cfg settleFuel { prev := none, cur := initialSession })

/-! ## The order API client (`utils/api.js`) -/

/-- The endpoint paths of `config.api.endpoints` (`config.json` is not part of the
sources). -/
structure Endpoints where
  limitOrder : String
  cancelOrder : String
  orderBook : String
  initiateWithdrawal : String
deriving DecidableEq, Repr

/-- A request body: an object literal sent as JSON, or a `FormData` whose entries
are `JSON.stringify` of an object literal. -/
inductive Body (V : Type) where
  | json (fields : List (String × V))
  | formData (entries : List (String × List (String × V)))
deriving DecidableEq, Repr

/-- One `api.post(url, body, config)` call; `headers` are the per-request headers. -/
structure Request (V : Type) where
  url : String
  body : Body V
  headers : List (String × String)
deriving DecidableEq, Repr

/-- The response object axios resolves with. -/
structure Response (D : Type) where
  status : Nat
  data : D
deriving DecidableEq, Repr

/-- The axios instance as an oracle: what each POST resolves or rejects with. -/
def Transport (V D : Type) : Type := Request V → Except JsError (Response D)

/-- What the client issues. -/
inductive ApiEvent (V : Type) where
  | post (request : Request V)
  | consoleError (label : String) (error : JsError)
deriving DecidableEq, Repr

/-- The shape shared by the four client functions: one awaited POST, `response.data`
on success; on failure log under `label` and rethrow. -/
def postAndReturnData {V D : Type} (T : Transport V D) (request : Request V) (label : String) :
    Op (ApiEvent V) D :=
  Op.tryCatch
    (do let response ← Op.call (.post request) (T request)
        Op.pure response.data)
    (fun error => do
      Op.emit (.consoleError label error)
      Op.throw error)

/-- The function `orderApi.placeLimitOrder`. -/
def placeLimitOrder {V D : Type} (ep : Endpoints) (T : Transport V D)
    (account price quantity side baseAsset quoteAsset : V) : Op (ApiEvent V) D :=
  postAndReturnData T
    { url := ep.limitOrder,
      body := .json [("account", account), ("price", price), ("quantity", quantity),
        ("side", side), ("baseAsset", baseAsset), ("quoteAsset", quoteAsset)],
      headers := [] }
    "Error placing limit order:"

/-- The function `orderApi.cancelOrder`. -/
def cancelOrder {V D : Type} (ep : Endpoints) (T : Transport V D)
    (orderId side baseAsset quoteAsset : V) : Op (ApiEvent V) D :=
  postAndReturnData T
    { url := ep.cancelOrder,
      body := .json [("orderId", orderId), ("side", side), ("baseAsset", baseAsset),
        ("quoteAsset", quoteAsset)],
      headers := [] }
    "Error cancelling order:"

/-- The function `orderApi.getOrderBook`. -/
def getOrderBook {V D : Type} (ep : Endpoints) (T : Transport V D) (symbol : V) :
    Op (ApiEvent V) D :=
  postAndReturnData T
    { url := ep.orderBook,
      body := .formData [("payload", [("symbol", symbol)])],
      headers := [("Content-Type", "multipart/form-data")] }
    "Error fetching orderbook:"

/-- The function `orderApi.initiateWithdrawal`. -/
def initiateWithdrawal {V D : Type} (ep : Endpoints) (T : Transport V D)
    (account asset amount : V) : Op (ApiEvent V) D :=
  postAndReturnData T
    { url := ep.initiateWithdrawal,
      body := .json [("account", account), ("asset", asset), ("amount", amount)],
      headers := [] }
    "Error initiating withdrawal:"

/-- The POST requests among the events of a call. -/
def posts {V : Type} : List (ApiEvent V) → List (Request V)
  | [] => []
  | .post r :: rest => r :: posts rest
  | .consoleError _ _ :: rest => posts rest

/-! ## Sample values -/

/-- A configuration: Polygon Amoy (chain 80002) and an order-book address. -/
def sampleConfig : Config :=
  { CHAIN_ID := 80002, P2P_ORDERBOOK_ADDRESS := "0xBOOK" }

/-- A connected session of account `0xA` on the configured chain. -/
def sampleSession : Session :=
  { chainId := some 80002, accounts := some ["0xA"], isActive := true,
    provider := some ⟨1⟩, account := some "0xA", loading := false,
    orderBookContract := some ⟨"0xBOOK", ⟨1⟩⟩, networkError := "" }

/-- The same session on chain 1, which is not the configured chain. -/
def wrongChainSession : Session :=
  { sampleSession with
    chainId := some 1
    networkError := networkMessage sampleConfig }

/-- A ledger on which every call succeeds: a 6-decimals token, `balance` raw units
owned, `escrowed` raw units in escrow. -/
def sampleLedger (balance escrowed : Nat) : Ledger :=
  { decimals := fun _ => .ok 6,
    balanceOf := fun _ _ => .ok balance,
    approve := fun _ _ _ => .ok ⟨1⟩,
    escrow := fun _ _ => .ok ⟨2⟩,
    wait := fun tx => .ok ⟨100 + tx.hash⟩,
    escrowedFunds := fun _ _ => .ok (some escrowed) }

/-- An error as a ledger or transport raises it. -/
def sampleError : JsError :=
  { message := "transaction failed", data := none, response := some (500, "reverted") }

/-- A ledger whose `approve` call is rejected. -/
def approveFailsLedger : Ledger :=
  { (sampleLedger 20000000 0) with approve := fun _ _ _ => .error sampleError }

/-- A ledger whose `approve` is confirmed and whose `escrow` call is rejected. -/
def escrowFailsLedger : Ledger :=
  { (sampleLedger 20000000 0) with escrow := fun _ _ => .error sampleError }

/-- A ledger of an 18-decimals token with nothing in escrow. -/
def emptyEscrowLedger : Ledger :=
  { (sampleLedger 0 0) with decimals := fun _ => .ok 18 }

/-- A connector whose calls are rejected. -/
def failingConnector : WalletConnector :=
  { activate := .error sampleError, resetState := .error sampleError }

/-- Sample endpoints. -/
def sampleEndpoints : Endpoints :=
  { limitOrder := "/limitOrder", cancelOrder := "/cancelOrder", orderBook := "/orderBook",
    initiateWithdrawal := "/initiateWithdrawal" }

/-- A transport that answers every POST with status 200 and the given data. -/
def okTransport (data : String) : Transport String String :=
  fun _ => .ok { status := 200, data := data }

/-- The amount text `10.5`. -/
def tenAndHalf : List Char := ['1', '0', '.', '5']

/-! ## Lemmas on digit strings -/

theorem foldl_digit_zeros (k acc : Nat) :
    (List.replicate k '0').foldl (fun acc c => 10 * acc + (c.toNat - 48)) acc = acc * 10 ^ k := by
  induction k generalizing acc with
  | zero => simp
  | succ k ih =>
    rw [List.replicate_succ, List.foldl_cons, ih]
    have h0 : ('0' : Char).toNat - 48 = 0 := by decide
    rw [h0, pow_succ]
    ring

theorem bigNumberFrom_append (a b : List Char) :
    bigNumberFrom (a ++ b) =
      b.foldl (fun acc c => 10 * acc + (c.toNat - 48)) (bigNumberFrom a) := by
  simp [bigNumberFrom, List.foldl_append]

theorem bigNumberFrom_append_singleton (a : List Char) (c : Char) :
    bigNumberFrom (a ++ [c]) = 10 * bigNumberFrom a + (c.toNat - 48) := by
  rw [bigNumberFrom_append]; rfl

theorem bigNumberFrom_append_zeros (a : List Char) (k : Nat) :
    bigNumberFrom (a ++ List.replicate k '0') = bigNumberFrom a * 10 ^ k := by
  rw [bigNumberFrom_append, foldl_digit_zeros]

theorem bigNumberFrom_zeros (k : Nat) : bigNumberFrom (List.replicate k '0') = 0 := by
  have h := bigNumberFrom_append_zeros [] k
  simpa [bigNumberFrom] using h

theorem bigNumberFrom_zeros_append (k : Nat) (a : List Char) :
    bigNumberFrom (List.replicate k '0' ++ a) = bigNumberFrom a := by
  rw [bigNumberFrom_append, bigNumberFrom_zeros]; rfl

theorem bigNumberFrom_multiplier (d : Nat) :
    bigNumberFrom ('1' :: List.replicate d '0') = 10 ^ d := by
  have h := bigNumberFrom_append_zeros ['1'] d
  have h1 : bigNumberFrom ['1'] = 1 := by decide
  rw [h1, one_mul] at h
  exact h

theorem trimTrailingZeros_spec (f : List Char) :
    f = trimTrailingZeros f ++ List.replicate (f.length - (trimTrailingZeros f).length) '0' := by
  have h := List.takeWhile_append_dropWhile (fun c => c == '0') f.reverse
  have h2 : f = (f.reverse.dropWhile (fun c => c == '0')).reverse ++
      (f.reverse.takeWhile (fun c => c == '0')).reverse := by
    have h4 := congrArg List.reverse h.symm
    rw [List.reverse_reverse, List.reverse_append] at h4
    exact h4
  have h3 : (f.reverse.takeWhile (fun c => c == '0')).reverse =
      List.replicate (f.reverse.takeWhile (fun c => c == '0')).length '0' := by
    rw [List.eq_replicate_iff]
    refine ⟨by simp, ?_⟩
    intro b hb
    have hb2 : b ∈ f.reverse.takeWhile (fun c => c == '0') := by simpa using hb
    have := List.mem_takeWhile_imp hb2
    simpa using this
  have hlen : f.length = (trimTrailingZeros f).length +
      (f.reverse.takeWhile (fun c => c == '0')).length := by
    have := congrArg List.length h2
    simpa [trimTrailingZeros] using this
  have hk : f.length - (trimTrailingZeros f).length =
      (f.reverse.takeWhile (fun c => c == '0')).length := by omega
  rw [hk, ← h3]
  exact h2

theorem trimTrailingZeros_length_le (f : List Char) :
    (trimTrailingZeros f).length ≤ f.length := by
  have h := congrArg List.length (trimTrailingZeros_spec f)
  simp at h
  omega

theorem split_of_no_dot (w : List Char) (hw : ∀ c ∈ w, c ≠ '.') : split w = [w] := by
  induction w with
  | nil => rfl
  | cons c cs ih =>
    have hc : c ≠ '.' := hw c (by simp)
    have ih2 := ih (fun x hx => hw x (by simp [hx]))
    simp [split, hc, ih2]

theorem split_of_one_dot (w f : List Char) (hw : ∀ c ∈ w, c ≠ '.') (hf : ∀ c ∈ f, c ≠ '.') :
    split (w ++ '.' :: f) = [w, f] := by
  induction w with
  | nil => simp [split, split_of_no_dot f hf]
  | cons c cs ih =>
    have hc : c ≠ '.' := hw c (by simp)
    have ih2 := ih (fun x hx => hw x (by simp [hx]))
    simp [split, hc, ih2]

theorem isDigit_ne_dot (c : Char) (h : c.isDigit = true) : c ≠ '.' := by
  intro hc; subst hc; revert h; decide

theorem isDigit_ne_minus (c : Char) (h : c.isDigit = true) : c ≠ '-' := by
  intro hc; subst hc; revert h; decide

/-! ## Shape of a decimal numeral -/

theorem numeral_shape (s : List Char) :
    (unsignedPart s = wholeDigits s ∧ fractionDigits s = []) ∨
      unsignedPart s = wholeDigits s ++ '.' :: fractionDigits s := by
  have h := List.takeWhile_append_dropWhile (fun c => c != '.') (unsignedPart s)
  cases hdw : (unsignedPart s).dropWhile (fun c => c != '.') with
  | nil =>
    left
    rw [hdw, List.append_nil] at h
    exact ⟨h.symm, by simp [fractionDigits, hdw]⟩
  | cons c rest =>
    right
    have hne : (unsignedPart s).dropWhile (fun c => c != '.') ≠ [] := by simp [hdw]
    have hc := List.head_dropWhile_not (fun c => c != '.') (unsignedPart s) hne
    simp only [hdw, List.head_cons] at hc
    have hc2 : c = '.' := by simpa using hc
    rw [hdw, hc2] at h
    simp only [wholeDigits, fractionDigits, hdw, List.drop_succ_cons, List.drop_zero]
    exact h.symm

theorem wholeDigits_no_dot (s : List Char) : ∀ c ∈ wholeDigits s, c ≠ '.' := by
  intro c hc
  have := List.mem_takeWhile_imp hc
  simpa using this

theorem matchesDecimal_of_numeral (s : List Char) (hs : isDecimalNumeral s = true) :
    matchesDecimal s = true := by
  simp only [isDecimalNumeral, Bool.and_eq_true, Bool.or_eq_true, List.all_eq_true] at hs
  obtain ⟨⟨hw, hf⟩, hne⟩ := hs
  have hbody : matchesDecimal s =
      (!(unsignedPart s).isEmpty && (unsignedPart s).all (fun c => c.isDigit || c == '.')) := by
    unfold matchesDecimal unsignedPart
    split <;> rfl
  rw [hbody]
  rcases numeral_shape s with ⟨h1, h2⟩ | h1
  · rw [h1]
    rw [h2] at hne
    simp only [List.isEmpty_nil, Bool.not_true, Bool.false_eq_true, or_false] at hne
    simp only [Bool.and_eq_true, hne, true_and, List.all_eq_true, Bool.or_eq_true]
    intro c hc
    exact Or.inl (hw c hc)
  · rw [h1]
    simp only [Bool.and_eq_true, List.all_eq_true, Bool.or_eq_true, List.mem_append,
      List.mem_cons]
    refine ⟨by simp, ?_⟩
    intro c hc
    rcases hc with hc | hc | hc
    · exact Or.inl (hw c hc)
    · right; simp [hc]
    · exact Or.inl (hf c hc)

theorem drop_sign_eq (s : List Char) :
    (if (s.head? == some '-') = true then s.drop 1 else s) = unsignedPart s := by
  cases s with
  | nil => rfl
  | cons c cs =>
    by_cases hc : c = '-'
    · subst hc; rfl
    · have : unsignedPart (c :: cs) = c :: cs := by
        unfold unsignedPart
        split
        · rename_i heq
          simp only [List.cons.injEq] at heq
          exact absurd heq.1 hc
        · rfl
      rw [this]
      simp [hc]

/-! ## Exactness of `parseFixed` -/

theorem bigNumberFrom_padEnd (x : List Char) (n : Nat) :
    bigNumberFrom (padEnd x n) = bigNumberFrom x * 10 ^ (n - x.length) := by
  unfold padEnd
  exact bigNumberFrom_append_zeros x _

theorem bigNumberFrom_orZero (x : List Char) :
    bigNumberFrom (if x.isEmpty = true then ['0'] else x) = bigNumberFrom x := by
  cases x with
  | nil => decide
  | cons c cs => simp

theorem fraction_scaled (f : List Char) (d : Nat) (hf : f.length ≤ d) :
    (trimTrailingZeros (if f.isEmpty = true then ['0'] else f)).length ≤ d ∧
    bigNumberFrom (padEnd
      (if (trimTrailingZeros (if f.isEmpty = true then ['0'] else f)).isEmpty = true then ['0']
        else trimTrailingZeros (if f.isEmpty = true then ['0'] else f)) d) * 10 ^ f.length =
      bigNumberFrom f * 10 ^ d := by
  cases f with
  | nil =>
    have ht : trimTrailingZeros ['0'] = [] := by decide
    simp only [List.isEmpty_nil, if_true, ht, List.length_nil, Nat.zero_le, true_and, pow_zero,
      mul_one]
    rw [bigNumberFrom_padEnd]
    have h0 : bigNumberFrom ['0'] = 0 := by decide
    have h1 : bigNumberFrom [] = 0 := by decide
    rw [h0, h1]; simp
  | cons c cs =>
    have hne : (c :: cs).isEmpty = false := rfl
    simp only [hne, Bool.false_eq_true, if_false]
    have hspec := trimTrailingZeros_spec (c :: cs)
    have hle := trimTrailingZeros_length_le (c :: cs)
    refine ⟨le_trans hle hf, ?_⟩
    generalize trimTrailingZeros (c :: cs) = t at hspec hle
    generalize hk : (c :: cs).length - t.length = k at hspec
    have hN : bigNumberFrom (c :: cs) = bigNumberFrom t * 10 ^ k := by
      conv_lhs => rw [hspec]
      exact bigNumberFrom_append_zeros t k
    rw [bigNumberFrom_padEnd, hN]
    cases t with
    | nil =>
      have h0 : bigNumberFrom ['0'] = 0 := by decide
      have h1 : bigNumberFrom [] = 0 := by decide
      simp [h0, h1]
    | cons a as =>
      have hne2 : (a :: as).isEmpty = false := rfl
      simp only [hne2, Bool.false_eq_true, if_false]
      have hlen : (c :: cs).length = (a :: as).length + k := by omega
      have hd : d = (d - (a :: as).length) + (a :: as).length := by omega
      rw [hlen]
      conv_rhs => rw [hd]
      rw [pow_add, pow_add]
      ring

theorem parseFixed_of_numeral (s : List Char) (d : Nat) (hs : isDecimalNumeral s = true)
    (hd : d ≤ 256) (hf : (fractionDigits s).length ≤ d) :
    ∃ F : Nat, F * 10 ^ (fractionDigits s).length = bigNumberFrom (fractionDigits s) * 10 ^ d ∧
      parseFixed s d = .ok
        (if (s.head? == some '-') = true
          then ((bigNumberFrom (wholeDigits s) : Int) * ((10 ^ d : Nat) : Int) + (F : Int)) * (-1)
          else (bigNumberFrom (wholeDigits s) : Int) * ((10 ^ d : Nat) : Int) + (F : Int)) := by
  have hm := matchesDecimal_of_numeral s hs
  obtain ⟨hlen, hF⟩ := fraction_scaled (fractionDigits s) d hf
  refine ⟨_, hF, ?_⟩
  simp only [isDecimalNumeral, Bool.and_eq_true, Bool.or_eq_true, List.all_eq_true] at hs
  obtain ⟨⟨hw, hfd⟩, hne⟩ := hs
  have hwd := wholeDigits_no_dot s
  have hfdot : ∀ c ∈ fractionDigits s, c ≠ '.' := fun c hc => isDigit_ne_dot c (hfd c hc)
  unfold parseFixed
  simp only [getMultiplier, hd, if_true, hm, Bool.not_true, Bool.false_eq_true, if_false,
    drop_sign_eq, List.length_cons, List.length_replicate, Nat.add_sub_cancel,
    bigNumberFrom_multiplier]
  rcases numeral_shape s with ⟨h1, h2⟩ | h1
  · have hsplit : split (unsignedPart s) = [wholeDigits s] := by
      conv_lhs => rw [h1]
      exact split_of_no_dot _ hwd
    have hnd : unsignedPart s ≠ ['.'] := by
      rw [h1]; intro hc
      have := hwd '.' (by rw [hc]; simp)
      exact this rfl
    rw [h2] at hlen
    simp only [hnd, if_false, hsplit, List.length_singleton, List.getD_cons_zero]
    have hg : ([wholeDigits s] : List (List Char)).getD 1 [] = [] := rfl
    rw [hg]
    rw [h2]
    have hlt : ¬ (1 > 2) := by omega
    simp only [hlt, if_false]
    have hlen2 : ¬ ((trimTrailingZeros (if ([] : List Char).isEmpty = true then ['0'] else [])).length > d) := by
      omega
    simp only [hlen2, if_false, bigNumberFrom_orZero]
  · have hsplit : split (unsignedPart s) = [wholeDigits s, fractionDigits s] := by
      rw [h1]; exact split_of_one_dot _ _ hwd hfdot
    have hnd : unsignedPart s ≠ ['.'] := by
      rw [h1]; intro hc
      cases hwl : wholeDigits s with
      | nil =>
        rw [hwl] at hc
        simp only [List.nil_append, List.cons.injEq, true_and] at hc
        rw [hwl, hc] at hne
        simp at hne
      | cons a as =>
        rw [hwl] at hc
        simp at hc
    simp only [hnd, if_false, hsplit, List.length_cons, List.length_nil, List.getD_cons_zero]
    have hg : ([wholeDigits s, fractionDigits s] : List (List Char)).getD 1 [] =
        fractionDigits s := rfl
    rw [hg]
    have hlt : ¬ (0 + 1 + 1 > 2) := by omega
    simp only [hlt, if_false]
    have hlen2 : ¬ ((trimTrailingZeros
        (if (fractionDigits s).isEmpty = true then ['0'] else fractionDigits s)).length > d) := by
      omega
    simp only [hlen2, if_false, bigNumberFrom_orZero]

theorem parseUnits_scaled (s : List Char) (d : Nat) (hs : isDecimalNumeral s = true)
    (hd : d ≤ 256) (hf : (fractionDigits s).length ≤ d) :
    ∃ raw : Int, parseUnits s d = .ok raw ∧ (raw : ℚ) = decimalValue s * (10 : ℚ) ^ d := by
  obtain ⟨F, hF, hp⟩ := parseFixed_of_numeral s d hs hd hf
  refine ⟨_, hp, ?_⟩
  have hpos : ((10 : ℚ) ^ (fractionDigits s).length) ≠ 0 := by positivity
  have hFq : (F : ℚ) = (bigNumberFrom (fractionDigits s) : ℚ) * (10 : ℚ) ^ d /
      (10 : ℚ) ^ (fractionDigits s).length := by
    rw [eq_div_iff hpos]
    exact_mod_cast hF
  unfold decimalValue
  by_cases hneg : (s.head? == some '-') = true
  · simp only [hneg, if_true]
    push_cast
    rw [hFq]
    field_simp
    ring
  · simp only [hneg, if_false]
    push_cast
    rw [hFq]
    field_simp
    ring

/-! ## Exactness of `formatFixed` -/

theorem isDigit_digitChar (m : Nat) (hm : m < 10) : (Nat.digitChar m).isDigit = true := by
  interval_cases m <;> rfl

theorem value_digitChar (m : Nat) (hm : m < 10) : (Nat.digitChar m).toNat - 48 = m := by
  interval_cases m <;> rfl

/-- What `BigNumber.prototype.toString` prints: the text put in front of `tail` is a
non-empty run of digits that reads back as `n` and is no longer than `n` needs. -/
theorem render_core : ∀ (fuel n : Nat) (tail : List Char), n < fuel →
    ∃ out : List Char, (out ≠ [] ∧ bigNumberFrom out = n) ∧
      (∀ c ∈ out, c.isDigit = true) ∧ (∀ k, 1 ≤ k → n < 10 ^ k → out.length ≤ k) ∧
      Nat.toDigitsCore 10 fuel n tail = out ++ tail := by
  intro fuel
  induction fuel with
  | zero => intro n tail h; omega
  | succ fuel ih =>
    intro n tail hn
    have hmod : n % 10 < 10 := Nat.mod_lt _ (by omega)
    unfold Nat.toDigitsCore
    by_cases hq : n / 10 = 0
    · simp only [hq, if_true]
      have hlt : n < 10 := by omega
      have hmodn : n % 10 = n := Nat.mod_eq_of_lt hlt
      refine ⟨[Nat.digitChar (n % 10)], ⟨by simp, ?_⟩, ?_, ?_, rfl⟩
      · have h := bigNumberFrom_append_singleton [] (Nat.digitChar (n % 10))
        simp only [List.nil_append] at h
        rw [h, value_digitChar _ hmod, hmodn]
        have h1 : bigNumberFrom [] = 0 := by decide
        rw [h1]; omega
      · intro c hc
        simp only [List.mem_singleton] at hc
        rw [hc]; exact isDigit_digitChar _ hmod
      · intro k hk _
        simpa using hk
    · simp only [hq, if_false]
      have hlt : n / 10 < fuel := by omega
      obtain ⟨out, ⟨hne, hval⟩, hdig, hlen, hout⟩ :=
        ih (n / 10) (Nat.digitChar (n % 10) :: tail) hlt
      refine ⟨out ++ [Nat.digitChar (n % 10)], ⟨by simp, ?_⟩, ?_, ?_, by rw [hout]; simp⟩
      · rw [bigNumberFrom_append_singleton, hval, value_digitChar _ hmod]
        omega
      · intro c hc
        simp only [List.mem_append, List.mem_singleton] at hc
        rcases hc with hc | hc
        · exact hdig c hc
        · rw [hc]; exact isDigit_digitChar _ hmod
      · intro k hk hnk
        have hk2 : 2 ≤ k := by
          by_contra hcon
          have hk1 : k = 1 := by omega
          rw [hk1] at hnk
          omega
        have hpow : 10 ^ k = 10 ^ (k - 1) * 10 := by
          rw [← pow_succ]; congr 1; omega
        have hq2 : n / 10 < 10 ^ (k - 1) := by
          rw [hpow] at hnk
          exact Nat.div_lt_of_lt_mul (by rw [mul_comm]; exact hnk)
        have := hlen (k - 1) (by omega) hq2
        simp only [List.length_append, List.length_singleton]
        omega

theorem toDigits_spec (n : Nat) :
    Nat.toDigits 10 n ≠ [] ∧ (∀ c ∈ Nat.toDigits 10 n, c.isDigit = true) ∧
      bigNumberFrom (Nat.toDigits 10 n) = n ∧
      (∀ k, 1 ≤ k → n < 10 ^ k → (Nat.toDigits 10 n).length ≤ k) := by
  obtain ⟨out, ⟨hne, hval⟩, hdig, hlen, hout⟩ := render_core (n + 1) n [] (by omega)
  have h : Nat.toDigits 10 n = out := by
    unfold Nat.toDigits
    rw [hout, List.append_nil]
  rw [h]
  exact ⟨hne, hdig, hval, hlen⟩

theorem unsignedPart_of_digit_head (c : Char) (cs : List Char) (hc : c.isDigit = true) :
    unsignedPart (c :: cs) = c :: cs := by
  unfold unsignedPart
  split
  · rename_i heq
    simp only [List.cons.injEq] at heq
    exact absurd heq.1 (isDigit_ne_minus c hc)
  · rfl

theorem takeWhile_digits_dot (W rest : List Char) (hW : ∀ c ∈ W, c.isDigit = true) :
    (W ++ '.' :: rest).takeWhile (fun c => c != '.') = W ∧
      (W ++ '.' :: rest).dropWhile (fun c => c != '.') = '.' :: rest := by
  induction W with
  | nil => simp
  | cons c cs ih =>
    have hc : c ≠ '.' := isDigit_ne_dot c (hW c (by simp))
    have ih2 := ih (fun x hx => hW x (by simp [hx]))
    simp [hc, ih2.1, ih2.2]

theorem takeWhile_digits (W : List Char) (hW : ∀ c ∈ W, c.isDigit = true) :
    W.takeWhile (fun c => c != '.') = W ∧ W.dropWhile (fun c => c != '.') = [] := by
  induction W with
  | nil => simp
  | cons c cs ih =>
    have hc : c ≠ '.' := isDigit_ne_dot c (hW c (by simp))
    have ih2 := ih (fun x hx => hW x (by simp [hx]))
    simp [hc, ih2.1, ih2.2]

theorem decimalValue_whole (neg : Bool) (W : List Char) (hW : ∀ c ∈ W, c.isDigit = true)
    (hne : W ≠ []) :
    decimalValue (if neg = true then '-' :: W else W) =
      if neg = true then -(bigNumberFrom W : ℚ) else (bigNumberFrom W : ℚ) := by
  obtain ⟨c, cs, rfl⟩ := List.exists_cons_of_ne_nil hne
  have hc := hW c (by simp)
  have hu := unsignedPart_of_digit_head c cs hc
  have htw := takeWhile_digits (c :: cs) hW
  have hN : bigNumberFrom [] = 0 := by decide
  cases neg with
  | true =>
    have hu2 : unsignedPart ('-' :: c :: cs) = c :: cs := rfl
    simp only [if_true, decimalValue, wholeDigits, fractionDigits, hu2, htw.1, htw.2]
    simp [hN]
  | false =>
    have hh : ((c :: cs).head? == some '-') = false := by
      simp [isDigit_ne_minus c hc]
    simp only [Bool.false_eq_true, if_false, decimalValue, wholeDigits, fractionDigits, hu,
      htw.1, htw.2, hh]
    simp [hN]

theorem decimalValue_parts (neg : Bool) (W fr : List Char) (hW : ∀ c ∈ W, c.isDigit = true)
    (hne : W ≠ []) :
    decimalValue (if neg = true then '-' :: (W ++ '.' :: fr) else W ++ '.' :: fr) =
      if neg = true
        then -((bigNumberFrom W : ℚ) + (bigNumberFrom fr : ℚ) / (10 : ℚ) ^ fr.length)
        else (bigNumberFrom W : ℚ) + (bigNumberFrom fr : ℚ) / (10 : ℚ) ^ fr.length := by
  obtain ⟨c, cs, rfl⟩ := List.exists_cons_of_ne_nil hne
  have hc := hW c (by simp)
  have hu := unsignedPart_of_digit_head c (cs ++ '.' :: fr) hc
  have htw := takeWhile_digits_dot (c :: cs) fr hW
  cases neg with
  | true =>
    have hu2 : unsignedPart ('-' :: (c :: cs ++ '.' :: fr)) = c :: cs ++ '.' :: fr := rfl
    simp only [if_true, decimalValue, wholeDigits, fractionDigits, hu2, htw.1, htw.2]
    simp
  | false =>
    have hh : ((c :: cs ++ '.' :: fr).head? == some '-') = false := by
      simp [isDigit_ne_minus c hc]
    have hu3 : unsignedPart (c :: cs ++ '.' :: fr) = c :: cs ++ '.' :: fr := hu
    simp only [Bool.false_eq_true, if_false, decimalValue, wholeDigits, fractionDigits, hu3,
      htw.1, htw.2, hh]
    simp

theorem stripFraction_value (X : List Char) (d r : Nat) (hd : 1 ≤ d) (hlen : X.length ≤ d)
    (hval : bigNumberFrom X = r) :
    (bigNumberFrom (stripFraction (padStart X d)) : ℚ) /
        (10 : ℚ) ^ (stripFraction (padStart X d)).length = (r : ℚ) / (10 : ℚ) ^ d := by
  have hPlen : (padStart X d).length = d := by
    simp only [padStart, List.length_append, List.length_replicate]; omega
  have hPval : bigNumberFrom (padStart X d) = r := by
    unfold padStart; rw [bigNumberFrom_zeros_append]; exact hval
  generalize padStart X d = P at hPlen hPval
  have hspec := trimTrailingZeros_spec P
  have hle := trimTrailingZeros_length_le P
  unfold stripFraction
  generalize trimTrailingZeros P = t at hspec hle
  generalize hk : P.length - t.length = k at hspec
  have hdk : d = t.length + k := by omega
  have hr : r = bigNumberFrom t * 10 ^ k := by
    rw [← hPval]
    conv_lhs => rw [hspec]
    exact bigNumberFrom_append_zeros t k
  cases t with
  | nil =>
    have hN : bigNumberFrom [] = 0 := by decide
    have hr0 : r = 0 := by rw [hr, hN]; simp
    simp only [List.isEmpty_nil, if_true]
    simp only [List.nil_append] at hspec
    have hk1 : 1 ≤ k := by simp at hdk; omega
    have htake : P.take 1 = ['0'] := by
      rw [hspec]
      obtain ⟨k2, rfl⟩ : ∃ k2, k = k2 + 1 := ⟨k - 1, by omega⟩
      simp [List.replicate_succ]
    have h0 : bigNumberFrom ['0'] = 0 := by decide
    rw [htake, h0, hr0]
    simp
  | cons a as =>
    have hne : (a :: as).isEmpty = false := rfl
    simp only [hne, Bool.false_eq_true, if_false]
    rw [hr, hdk, pow_add]
    push_cast
    have h1 : ((10 : ℚ) ^ (a :: as).length) ≠ 0 := by positivity
    have h2 : ((10 : ℚ) ^ k) ≠ 0 := by positivity
    field_simp
    ring

theorem formatUnits_scaled (raw : Int) (d : Nat) (hd : d ≤ 256) :
    ∃ t : List Char, formatUnits raw d = .ok t ∧ decimalValue t * (10 : ℚ) ^ d = (raw : ℚ) := by
  unfold formatUnits formatFixed
  simp only [getMultiplier, hd, if_true, bigNumberFrom_multiplier, List.length_cons,
    List.length_replicate, Nat.add_sub_cancel]
  refine ⟨_, rfl, ?_⟩
  have hv : (if decide (raw < 0) = true then raw * (-1) else raw).toNat = raw.natAbs := by
    by_cases h : raw < 0
    · simp only [h, decide_True, if_true]; omega
    · simp only [h, decide_False, Bool.false_eq_true, if_false]; omega
  rw [hv]
  obtain ⟨hWne, hWdig, hWval, -⟩ := toDigits_spec (raw.natAbs / 10 ^ d)
  obtain ⟨-, -, hXval, hXlen⟩ := toDigits_spec (raw.natAbs % 10 ^ d)
  have hdm := Nat.div_add_mod raw.natAbs (10 ^ d)
  have hdmq : ((10 ^ d : Nat) : ℚ) * ((raw.natAbs / 10 ^ d : Nat) : ℚ) +
      ((raw.natAbs % 10 ^ d : Nat) : ℚ) = (raw.natAbs : ℚ) := by exact_mod_cast hdm
  have habs : (raw : ℚ) = if decide (raw < 0) = true then -(raw.natAbs : ℚ) else (raw.natAbs : ℚ) := by
    by_cases h : raw < 0
    · simp only [h, decide_True, if_true]
      have h1 : raw = -(raw.natAbs : Int) := by omega
      have h2 : (raw : ℚ) = ((-(raw.natAbs : Int) : Int) : ℚ) := congrArg Int.cast h1
      rw [Int.cast_neg, Int.cast_natCast] at h2
      exact h2
    · simp only [h, decide_False, Bool.false_eq_true, if_false]
      have h1 : raw = (raw.natAbs : Int) := by omega
      have h2 : (raw : ℚ) = (((raw.natAbs : Int) : Int) : ℚ) := congrArg Int.cast h1
      rw [Int.cast_natCast] at h2
      exact h2
  have hpos : ((10 : ℚ) ^ d) ≠ 0 := by positivity
  by_cases hd0 : d = 0
  · have hd1 : d + 1 = 1 := by omega
    simp only [hd1, if_true]
    rw [decimalValue_whole _ _ hWdig hWne, hWval, habs]
    subst hd0
    simp
  · have hd1 : ¬ (d + 1 = 1) := by omega
    simp only [hd1, if_false]
    rw [decimalValue_parts _ _ _ hWdig hWne, hWval]
    have hfr := stripFraction_value (Nat.toDigits 10 (raw.natAbs % 10 ^ d)) d
      (raw.natAbs % 10 ^ d) (by omega)
      (hXlen d (by omega) (Nat.mod_lt _ (by positivity))) hXval
    rw [hfr, habs]
    push_cast at hdmq
    by_cases h : raw < 0
    · simp only [h, decide_True, if_true]
      rw [← hdmq]
      field_simp
      ring
    · simp only [h, decide_False, Bool.false_eq_true, if_false]
      rw [← hdmq]
      field_simp
      ring

/-! ## Escrow and balance operations -/

theorem parseUnits_ok_decimals (amount : List Char) (d : Nat) (raw : Int)
    (h : parseUnits amount d = .ok raw) : d ≤ 256 := by
  by_contra hd
  simp [parseUnits, parseFixed, getMultiplier, hd] at h

theorem formatUnits_ok (value : Int) (d : Nat) (hd : d ≤ 256) :
    ∃ t, formatUnits value d = .ok t := by
  obtain ⟨t, ht, -⟩ := formatUnits_scaled value d hd
  exact ⟨t, ht⟩

theorem connected_iff (s : Session) :
    s.connected = true ↔
      s.orderBookContract.isSome = true ∧ s.isActive = true ∧ s.provider.isSome = true := by
  simp [Session.connected, and_assoc]

theorem guard_of_connected (s : Session) (hc : s.connected = true) :
    (s.orderBookContract.isNone || !s.isActive) = false := by
  obtain ⟨h1, h2, -⟩ := (connected_iff s).1 hc
  cases h : s.orderBookContract <;> simp_all

theorem escrowFunds_connected (cfg : Config) (s : Session) (L : Ledger) (tok : Address)
    (amount : List Char) (hc : s.connected = true) :
    escrowFunds cfg s L tok amount =
      Op.bind (Op.tryCatch (escrowTry cfg s L tok amount) escrowCatch)
        (fun receipt => Op.pure (some receipt)) := by
  simp [escrowFunds, guard_of_connected s hc]

theorem getEscrowBalance_connected (s : Session) (L : Ledger) (tok : Address)
    (hc : s.connected = true) :
    getEscrowBalance s L tok =
      Op.bind (Op.tryCatch (balanceTry s L tok) balanceCatch)
        (fun formattedBalance => Op.pure (some formattedBalance)) := by
  simp [getEscrowBalance, guard_of_connected s hc]

theorem provider_of_connected (s : Session) (hc : s.connected = true) :
    ∃ p, s.provider = some p := by
  obtain ⟨-, -, hp⟩ := (connected_iff s).1 hc
  exact Option.isSome_iff_exists.1 hp

/-- The trace the `catch` block of `escrowFunds` adds. -/
theorem escrowCatch_eq (e : JsError) :
    escrowCatch e = (.error e,
      Event.consoleError "Error in escrow transaction:" e ::
        (match e.data with
          | some d => if d ≠ "" then [Event.consoleErrorData d] else []
          | none => [])) := by
  unfold escrowCatch
  cases hd : e.data with
  | none => rfl
  | some d =>
    by_cases hne : d = ""
    · simp [hne, bind, Op.bind, Op.emit, Op.pure, Op.throw]
    · simp [hne, bind, Op.bind, Op.emit, Op.pure, Op.throw]

theorem balanceCatch_eq (e : JsError) :
    balanceCatch e = (.error e, [Event.consoleError "Error fetching escrow balance:" e]) := rfl

/-- The run of `escrowFunds` in which every ledger call succeeds. -/
theorem escrowFunds_success (cfg : Config) (s : Session) (L : Ledger) (tok : Address)
    (amount : List Char) (d : Nat) (raw : Int) (bal : Nat) (approveTx tx : Tx)
    (r1 receipt : Receipt)
    (hc : s.connected = true)
    (hdec : L.decimals tok = .ok d)
    (hraw : parseUnits amount d = .ok raw)
    (hbal : L.balanceOf tok s.account = .ok bal)
    (hsuff : raw ≤ (bal : Int))
    (happ : L.approve tok cfg.P2P_ORDERBOOK_ADDRESS raw = .ok approveTx)
    (hw1 : L.wait approveTx = .ok r1)
    (hesc : L.escrow tok raw = .ok tx)
    (hw2 : L.wait tx = .ok receipt) :
    escrowFunds cfg s L tok amount =
      (.ok (some receipt),
        [.decimals tok, .balanceOf tok s.account,
          .approve tok cfg.P2P_ORDERBOOK_ADDRESS raw, .wait approveTx,
          .escrow tok raw, .wait tx]) := by
  rw [escrowFunds_connected cfg s L tok amount hc]
  obtain ⟨p, hp⟩ := provider_of_connected s hc
  obtain ⟨t, ht⟩ := formatUnits_ok (bal : Int) d (parseUnits_ok_decimals amount d raw hraw)
  have hn : ¬ ((bal : Int) < raw) := by omega
  simp [escrowTry, hp, getSigner, hdec, hraw, hbal, ht, hn, happ, hw1, hesc, hw2, bind,
    Op.bind, Op.lift, Op.call, Op.tryCatch, Op.pure]

/-- The run of `escrowFunds` up to a ledger failure at or after `approve`. -/
theorem escrowFunds_prefix (cfg : Config) (s : Session) (L : Ledger) (tok : Address)
    (amount : List Char) (d : Nat) (raw : Int) (bal : Nat)
    (hc : s.connected = true)
    (hdec : L.decimals tok = .ok d)
    (hraw : parseUnits amount d = .ok raw)
    (hbal : L.balanceOf tok s.account = .ok bal)
    (hsuff : raw ≤ (bal : Int)) :
    escrowFunds cfg s L tok amount =
      Op.bind (Op.tryCatch
        (Op.bind (((.ok (), [.decimals tok, .balanceOf tok s.account]) : Op Event Unit))
          (fun _ => do
            let approveTx ← Op.call (.approve tok cfg.P2P_ORDERBOOK_ADDRESS raw)
              (L.approve tok cfg.P2P_ORDERBOOK_ADDRESS raw)
            let _approved ← Op.call (.wait approveTx) (L.wait approveTx)
            let tx ← Op.call (.escrow tok raw) (L.escrow tok raw)
            let receipt ← Op.call (.wait tx) (L.wait tx)
            Op.pure receipt))
        escrowCatch) (fun receipt => Op.pure (some receipt)) := by
  rw [escrowFunds_connected cfg s L tok amount hc]
  obtain ⟨p, hp⟩ := provider_of_connected s hc
  obtain ⟨t, ht⟩ := formatUnits_ok (bal : Int) d (parseUnits_ok_decimals amount d raw hraw)
  have hn : ¬ ((bal : Int) < raw) := by omega
  simp [escrowTry, hp, getSigner, hdec, hraw, hbal, ht, hn, bind,
    Op.bind, Op.lift, Op.call, Op.tryCatch, Op.pure]

/-- C1: on a connected session, when the token balance of the account is strictly
below the requested amount in raw units, `escrowFunds` rejects with the error
`Insufficient balance` and its trace holds the two reads and the logged error only:
no `approve` and no `escrow` transaction is submitted. -/
theorem escrowFunds_insufficient_balance (cfg : Config) (s : Session) (L : Ledger)
    (tok : Address) (amount : List Char) (d : Nat) (raw : Int) (bal : Nat)
    (hc : s.connected = true)
    (hdec : L.decimals tok = .ok d)
    (hraw : parseUnits amount d = .ok raw)
    (hbal : L.balanceOf tok s.account = .ok bal)
    (hlt : (bal : Int) < raw) :
    escrowFunds cfg s L tok amount =
      (.error (newError "Insufficient balance"),
        [.decimals tok, .balanceOf tok s.account,
          .consoleError "Error in escrow transaction:" (newError "Insufficient balance")]) ∧
    (escrowFunds cfg s L tok amount).2.filter Event.isTransaction = [] := by
  have h : escrowFunds cfg s L tok amount =
      (.error (newError "Insufficient balance"),
        [.decimals tok, .balanceOf tok s.account,
          .consoleError "Error in escrow transaction:" (newError "Insufficient balance")]) := by
    rw [escrowFunds_connected cfg s L tok amount hc]
    obtain ⟨p, hp⟩ := provider_of_connected s hc
    obtain ⟨t, ht⟩ := formatUnits_ok (bal : Int) d (parseUnits_ok_decimals amount d raw hraw)
    simp [escrowTry, hp, getSigner, hdec, hraw, hbal, ht, hlt, bind, Op.bind, Op.lift,
      Op.call, Op.throw, Op.tryCatch, escrowCatch_eq, newError, Op.pure]
  refine ⟨h, ?_⟩
  rw [h]
  rfl

/-- Witness of C1: 10.5 tokens of a 6-decimals token requested, 10 raw units owned. -/
theorem escrowFunds_insufficient_balance_witness :
    escrowFunds sampleConfig sampleSession (sampleLedger 10 0) "0xT" tenAndHalf =
      (.error (newError "Insufficient balance"),
        [.decimals "0xT", .balanceOf "0xT" sampleSession.account,
          .consoleError "Error in escrow transaction:" (newError "Insufficient balance")]) ∧
    (escrowFunds sampleConfig sampleSession (sampleLedger 10 0) "0xT" tenAndHalf).2.filter
      Event.isTransaction = [] :=
  escrowFunds_insufficient_balance sampleConfig sampleSession (sampleLedger 10 0) "0xT"
    tenAndHalf 6 10500000 10 (by decide) rfl (by decide) rfl (by decide)

/-- C2: on a connected session with sufficient balance and a ledger whose calls all
succeed, `escrowFunds` issues, in this order, the two reads, `approve(orderBook, raw)`,
the wait for the approve transaction, `escrow(token, raw)` and the wait for the escrow
transaction, and resolves with the receipt of that last wait; `raw` is the amount
scaled by `10 ^ d`. -/
theorem escrowFunds_approve_then_escrow (cfg : Config) (s : Session) (L : Ledger)
    (tok : Address) (amount : List Char) (d : Nat) (raw : Int) (bal : Nat)
    (approveTx tx : Tx) (r1 receipt : Receipt)
    (hc : s.connected = true)
    (hnum : isDecimalNumeral amount = true)
    (hfrac : (fractionDigits amount).length ≤ d)
    (hd : d ≤ 256)
    (hraw : (raw : ℚ) = decimalValue amount * (10 : ℚ) ^ d)
    (hdec : L.decimals tok = .ok d)
    (hbal : L.balanceOf tok s.account = .ok bal)
    (hsuff : raw ≤ (bal : Int))
    (happ : L.approve tok cfg.P2P_ORDERBOOK_ADDRESS raw = .ok approveTx)
    (hw1 : L.wait approveTx = .ok r1)
    (hesc : L.escrow tok raw = .ok tx)
    (hw2 : L.wait tx = .ok receipt) :
    escrowFunds cfg s L tok amount =
      (.ok (some receipt),
        [.decimals tok, .balanceOf tok s.account,
          .approve tok cfg.P2P_ORDERBOOK_ADDRESS raw, .wait approveTx,
          .escrow tok raw, .wait tx]) := by
  obtain ⟨raw2, hp, hv⟩ := parseUnits_scaled amount d hnum hd hfrac
  have heq : raw2 = raw := by
    have : (raw2 : ℚ) = (raw : ℚ) := by rw [hv, hraw]
    exact_mod_cast this
  rw [heq] at hp
  exact escrowFunds_success cfg s L tok amount d raw bal approveTx tx r1 receipt hc hdec hp
    hbal hsuff happ hw1 hesc hw2

theorem decimalValue_tenAndHalf : decimalValue tenAndHalf = 21 / 2 := by
  have h1 : wholeDigits tenAndHalf = ['1', '0'] := by decide
  have h2 : fractionDigits tenAndHalf = ['5'] := by decide
  have h3 : bigNumberFrom ['1', '0'] = 10 := by decide
  have h4 : bigNumberFrom ['5'] = 5 := by decide
  have h5 : (tenAndHalf.head? == some '-') = false := by decide
  simp only [decimalValue, h1, h2, h3, h4, h5]
  norm_num

/-- Witness of C2: amount 10.5 and 6 decimals give `approve(spender, 10500000)` and
then `escrow(token, 10500000)`. -/
theorem escrowFunds_approve_then_escrow_witness :
    escrowFunds sampleConfig sampleSession (sampleLedger 20000000 0) "0xT" tenAndHalf =
      (.ok (some ⟨102⟩),
        [.decimals "0xT", .balanceOf "0xT" (some "0xA"),
          .approve "0xT" "0xBOOK" 10500000, .wait ⟨1⟩,
          .escrow "0xT" 10500000, .wait ⟨2⟩]) :=
  escrowFunds_approve_then_escrow sampleConfig sampleSession (sampleLedger 20000000 0) "0xT"
    tenAndHalf 6 10500000 20000000 ⟨1⟩ ⟨2⟩ ⟨101⟩ ⟨102⟩ (by decide) (by decide) (by decide)
    (by decide) (by rw [decimalValue_tenAndHalf]; norm_num) rfl rfl (by decide) rfl rfl rfl rfl

/-- C3 (as stated, refuted): with the same ledger error, the run in which `approve` is
confirmed and `escrow` then fails reports to the caller exactly what the run in which
`approve` itself fails reports; only the traces differ. -/
theorem escrowFunds_partial_not_distinguished :
    (escrowFunds sampleConfig sampleSession escrowFailsLedger "0xT" tenAndHalf).2 =
      [.decimals "0xT", .balanceOf "0xT" (some "0xA"), .approve "0xT" "0xBOOK" 10500000,
        .wait ⟨1⟩, .escrow "0xT" 10500000,
        .consoleError "Error in escrow transaction:" sampleError] ∧
    (escrowFunds sampleConfig sampleSession approveFailsLedger "0xT" tenAndHalf).2 =
      [.decimals "0xT", .balanceOf "0xT" (some "0xA"), .approve "0xT" "0xBOOK" 10500000,
        .consoleError "Error in escrow transaction:" sampleError] ∧
    (escrowFunds sampleConfig sampleSession escrowFailsLedger "0xT" tenAndHalf).1 =
      (escrowFunds sampleConfig sampleSession approveFailsLedger "0xT" tenAndHalf).1 := by
  decide

/-- C3 (amended): on a connected session with sufficient balance, a ledger error is
rethrown unchanged whatever the stage.  If `approve` is rejected with `e`, the call
rejects with `e` after the single `approve` attempt; if `approve` is confirmed and
`escrow` is rejected with `e`, the call rejects with the same `e`, the trace showing
the confirmed approval before the failed `escrow`.  The result carries no marker of
the stage. -/
theorem escrowFunds_rethrows_ledger_error (cfg : Config) (s : Session) (L : Ledger)
    (tok : Address) (amount : List Char) (d : Nat) (raw : Int) (bal : Nat)
    (hc : s.connected = true)
    (hdec : L.decimals tok = .ok d)
    (hraw : parseUnits amount d = .ok raw)
    (hbal : L.balanceOf tok s.account = .ok bal)
    (hsuff : raw ≤ (bal : Int)) :
    (∀ e, L.approve tok cfg.P2P_ORDERBOOK_ADDRESS raw = .error e →
      escrowFunds cfg s L tok amount =
        (.error e,
          [.decimals tok, .balanceOf tok s.account,
            .approve tok cfg.P2P_ORDERBOOK_ADDRESS raw] ++ (escrowCatch e).2)) ∧
    (∀ e approveTx r1, L.approve tok cfg.P2P_ORDERBOOK_ADDRESS raw = .ok approveTx →
      L.wait approveTx = .ok r1 → L.escrow tok raw = .error e →
      escrowFunds cfg s L tok amount =
        (.error e,
          [.decimals tok, .balanceOf tok s.account,
            .approve tok cfg.P2P_ORDERBOOK_ADDRESS raw, .wait approveTx,
            .escrow tok raw] ++ (escrowCatch e).2)) := by
  have h := escrowFunds_prefix cfg s L tok amount d raw bal hc hdec hraw hbal hsuff
  constructor
  · intro e happ
    rw [h]
    simp [happ, bind, Op.bind, Op.call, Op.tryCatch, escrowCatch_eq, Op.pure]
  · intro e approveTx r1 happ hw1 hesc
    rw [h]
    simp [happ, hw1, hesc, bind, Op.bind, Op.call, Op.tryCatch, escrowCatch_eq, Op.pure]

/-- Witness of C3 (amended): the two failing sample ledgers. -/
theorem escrowFunds_rethrows_ledger_error_witness :
    escrowFunds sampleConfig sampleSession approveFailsLedger "0xT" tenAndHalf =
      (.error sampleError,
        [.decimals "0xT", .balanceOf "0xT" sampleSession.account,
          .approve "0xT" sampleConfig.P2P_ORDERBOOK_ADDRESS 10500000] ++
          (escrowCatch sampleError).2) ∧
    escrowFunds sampleConfig sampleSession escrowFailsLedger "0xT" tenAndHalf =
      (.error sampleError,
        [.decimals "0xT", .balanceOf "0xT" sampleSession.account,
          .approve "0xT" sampleConfig.P2P_ORDERBOOK_ADDRESS 10500000, .wait ⟨1⟩,
          .escrow "0xT" 10500000] ++ (escrowCatch sampleError).2) :=
  ⟨(escrowFunds_rethrows_ledger_error sampleConfig sampleSession approveFailsLedger "0xT"
      tenAndHalf 6 10500000 20000000 (by decide) rfl (by decide) rfl (by decide)).1
      sampleError rfl,
   (escrowFunds_rethrows_ledger_error sampleConfig sampleSession escrowFailsLedger "0xT"
      tenAndHalf 6 10500000 20000000 (by decide) rfl (by decide) rfl (by decide)).2
      sampleError ⟨1⟩ ⟨101⟩ rfl rfl rfl⟩

/-! ## Balance query -/

theorem dropWhile_zeros (k : Nat) :
    (List.replicate k '0').dropWhile (fun c => c == '0') = [] := by
  induction k with
  | zero => rfl
  | succ k ih => simp [List.replicate_succ, ih]

theorem trimTrailingZeros_zeros (k : Nat) : trimTrailingZeros (List.replicate k '0') = [] := by
  simp [trimTrailingZeros, List.reverse_replicate, dropWhile_zeros]

theorem formatUnits_zero (d : Nat) (hd : d ≤ 256) :
    formatUnits 0 d = .ok (if d = 0 then ['0'] else ['0', '.', '0']) := by
  have ht : Nat.toDigits 10 0 = ['0'] := by decide
  unfold formatUnits formatFixed
  simp only [getMultiplier, hd, if_true, bigNumberFrom_multiplier, List.length_cons,
    List.length_replicate, Nat.add_sub_cancel]
  have hneg : decide ((0 : Int) < 0) = false := by decide
  simp only [hneg, Bool.false_eq_true, if_false, Int.toNat_zero, Nat.zero_mod, Nat.zero_div, ht]
  by_cases hd0 : d = 0
  · simp [hd0]
  · have hd1 : ¬ (d + 1 = 1) := by omega
    simp only [hd1, hd0, if_false]
    have hpad : padStart ['0'] d = List.replicate d '0' := by
      obtain ⟨k, rfl⟩ : ∃ k, d = k + 1 := ⟨d - 1, by omega⟩
      simp only [padStart, List.length_singleton, Nat.add_sub_cancel]
      rw [← List.replicate_succ']
    have hstrip : stripFraction (List.replicate d '0') = ['0'] := by
      obtain ⟨k, rfl⟩ : ∃ k, d = k + 1 := ⟨d - 1, by omega⟩
      simp only [stripFraction, trimTrailingZeros_zeros, List.isEmpty_nil, if_true]
      simp [List.replicate_succ]
    rw [hpad, hstrip]
    rfl

/-- C4 (as stated, refuted): for an 18-decimals token with zero escrowed funds,
`getEscrowBalance` resolves with the text `0.0`, which is not the text `0`. -/
theorem getEscrowBalance_zero_is_not_0 :
    emptyEscrowLedger.escrowedFunds sampleSession.account "0xT" = .ok (some 0) ∧
    getEscrowBalance sampleSession emptyEscrowLedger "0xT" =
      (.ok (some ['0', '.', '0']), [.escrowedFunds (some "0xA") "0xT", .decimals "0xT"]) ∧
    (getEscrowBalance sampleSession emptyEscrowLedger "0xT").1 ≠ .ok (some ['0']) := by
  decide

/-- C4 (amended): on a connected session, when `escrowedFunds(account, token)` is zero or
missing and the token has `d` decimals, `getEscrowBalance` resolves, without raising,
with `formatUnits(0, d)`: the text `0` when `d = 0` and the text `0.0` otherwise. -/
theorem getEscrowBalance_zero (s : Session) (L : Ledger) (tok : Address) (d : Nat)
    (funds : Option Nat)
    (hc : s.connected = true)
    (hfunds : L.escrowedFunds s.account tok = .ok funds)
    (hzero : funds = none ∨ funds = some 0)
    (hdec : L.decimals tok = .ok d)
    (hd : d ≤ 256) :
    getEscrowBalance s L tok =
      (.ok (some (if d = 0 then ['0'] else ['0', '.', '0'])),
        [.escrowedFunds s.account tok, .decimals tok]) := by
  rw [getEscrowBalance_connected s L tok hc]
  obtain ⟨p, hp⟩ := provider_of_connected s hc
  have hz : ((funds.getD 0 : Nat) : Int) = 0 := by
    rcases hzero with h | h <;> simp [h]
  simp [balanceTry, hp, getSigner, hfunds, hdec, hz, formatUnits_zero d hd, bind, Op.bind,
    Op.lift, Op.call, Op.tryCatch, Op.pure]

/-- Witness of C4 (amended): the 18-decimals token with nothing in escrow. -/
theorem getEscrowBalance_zero_witness :
    getEscrowBalance sampleSession emptyEscrowLedger "0xT" =
      (.ok (some (if 18 = 0 then ['0'] else ['0', '.', '0'])),
        [.escrowedFunds sampleSession.account "0xT", .decimals "0xT"]) :=
  getEscrowBalance_zero sampleSession emptyEscrowLedger "0xT" 18 (some 0) (by decide) rfl
    (Or.inr rfl) rfl (by decide)

/-! ## Round trip of the decimal conversions -/

/-- C5: for a decimal numeral with at most `d` fractional digits (`d` a valid decimals
size), `parseUnits` succeeds with an integer `raw`, `formatUnits` of `raw` succeeds, and
the text it returns denotes exactly the number the original numeral denotes.  Both
conversions are integer and string computations. -/
theorem parseUnits_formatUnits_roundtrip (amount : List Char) (d : Nat)
    (hnum : isDecimalNumeral amount = true)
    (hfrac : (fractionDigits amount).length ≤ d)
    (hd : d ≤ 256) :
    ∃ (raw : Int) (text : List Char), parseUnits amount d = .ok raw ∧
      formatUnits raw d = .ok text ∧ decimalValue text = decimalValue amount := by
  obtain ⟨raw, hp, hv⟩ := parseUnits_scaled amount d hnum hd hfrac
  obtain ⟨text, hf, hw⟩ := formatUnits_scaled raw d hd
  refine ⟨raw, text, hp, hf, ?_⟩
  have hpos : ((10 : ℚ) ^ d) ≠ 0 := by positivity
  have : decimalValue text * (10 : ℚ) ^ d = decimalValue amount * (10 : ℚ) ^ d := by
    rw [hw, hv]
  exact mul_right_cancel₀ hpos this

/-- Witness of C5: the amount 10.5 with 6 decimals. -/
theorem parseUnits_formatUnits_roundtrip_witness :
    ∃ (raw : Int) (text : List Char), parseUnits tenAndHalf 6 = .ok raw ∧
      formatUnits raw 6 = .ok text ∧ decimalValue text = decimalValue tenAndHalf :=
  parseUnits_formatUnits_roundtrip tenAndHalf 6 (by decide) (by decide) (by decide)

/-! ## Network mismatch -/

/-- C6 (as stated, refuted): on an active session with a contract handle whose chain
(1) is not the configured chain (80002), `escrowFunds` submits both the `approve` and
the `escrow` transaction. -/
theorem escrowFunds_submits_on_wrong_chain :
    wrongChainSession.isActive = true ∧ wrongChainSession.orderBookContract.isSome = true ∧
    wrongChainSession.chainId ≠ some sampleConfig.CHAIN_ID ∧
    (escrowFunds sampleConfig wrongChainSession (sampleLedger 20000000 0) "0xT"
        tenAndHalf).2.filter Event.isTransaction =
      [.approve "0xT" "0xBOOK" 10500000, .escrow "0xT" 10500000] := by
  decide

/-- C6 (amended): a network mismatch blocks neither operation.  On a connected session
whose chain differs from the configured one, `escrowFunds` submits `approve` and then
`escrow` when its ledger calls succeed, exactly as on the configured chain, and
`getEscrowBalance` resolves with the formatted escrowed balance. -/
theorem operations_ignore_network_mismatch (cfg : Config) (s : Session) (L : Ledger)
    (tok : Address) (amount : List Char) (d : Nat) (raw : Int) (bal : Nat)
    (approveTx tx : Tx) (r1 receipt : Receipt) (funds : Option Nat) (text : List Char)
    (hc : s.connected = true)
    (_hmis : s.chainId ≠ some cfg.CHAIN_ID)
    (hdec : L.decimals tok = .ok d)
    (hraw : parseUnits amount d = .ok raw)
    (hbal : L.balanceOf tok s.account = .ok bal)
    (hsuff : raw ≤ (bal : Int))
    (happ : L.approve tok cfg.P2P_ORDERBOOK_ADDRESS raw = .ok approveTx)
    (hw1 : L.wait approveTx = .ok r1)
    (hesc : L.escrow tok raw = .ok tx)
    (hw2 : L.wait tx = .ok receipt)
    (hfunds : L.escrowedFunds s.account tok = .ok funds)
    (htext : formatUnits ((funds.getD 0 : Nat) : Int) d = .ok text) :
    escrowFunds cfg s L tok amount =
      (.ok (some receipt),
        [.decimals tok, .balanceOf tok s.account,
          .approve tok cfg.P2P_ORDERBOOK_ADDRESS raw, .wait approveTx,
          .escrow tok raw, .wait tx]) ∧
    getEscrowBalance s L tok =
      (.ok (some text), [.escrowedFunds s.account tok, .decimals tok]) := by
  refine ⟨escrowFunds_success cfg s L tok amount d raw bal approveTx tx r1 receipt hc hdec
    hraw hbal hsuff happ hw1 hesc hw2, ?_⟩
  rw [getEscrowBalance_connected s L tok hc]
  obtain ⟨p, hp⟩ := provider_of_connected s hc
  simp [balanceTry, hp, getSigner, hfunds, hdec, htext, bind, Op.bind, Op.lift, Op.call,
    Op.tryCatch, Op.pure]

/-- Witness of C6 (amended): the sample session on chain 1 with 10.5 tokens in escrow. -/
theorem operations_ignore_network_mismatch_witness :
    escrowFunds sampleConfig wrongChainSession (sampleLedger 20000000 10500000) "0xT"
        tenAndHalf =
      (.ok (some ⟨102⟩),
        [.decimals "0xT", .balanceOf "0xT" wrongChainSession.account,
          .approve "0xT" sampleConfig.P2P_ORDERBOOK_ADDRESS 10500000, .wait ⟨1⟩,
          .escrow "0xT" 10500000, .wait ⟨2⟩]) ∧
    getEscrowBalance wrongChainSession (sampleLedger 20000000 10500000) "0xT" =
      (.ok (some tenAndHalf), [.escrowedFunds wrongChainSession.account "0xT",
        .decimals "0xT"]) :=
  operations_ignore_network_mismatch sampleConfig wrongChainSession
    (sampleLedger 20000000 10500000) "0xT" tenAndHalf 6 10500000 20000000 ⟨1⟩ ⟨2⟩ ⟨101⟩ ⟨102⟩
    (some 10500000) tenAndHalf (by decide) (by decide) rfl (by decide) rfl (by decide) rfl rfl
    rfl rfl rfl (by decide)

/-! ## An escrow call in flight and account changes -/

theorem resumeEscrow_done (cfg : Config) (L : Ledger) (i : EscrowIntent)
    (r : Except JsError (Option Receipt)) (h : i.stage = .done r) :
    resumeEscrow cfg L i = i := by
  unfold resumeEscrow
  rw [h]

theorem iterate_resumeEscrow_done (cfg : Config) (L : Ledger) (k : Nat) (i : EscrowIntent)
    (r : Except JsError (Option Receipt)) (h : i.stage = .done r) :
    (resumeEscrow cfg L)^[k] i = i := by
  induction k with
  | zero => rfl
  | succ k ih => rw [Function.iterate_succ_apply, resumeEscrow_done cfg L i r h, ih]

/-- Resuming a started call six times runs it to completion, with the outcome and the
trace of `escrowFunds`. -/
theorem resumeEscrow_six (cfg : Config) (s : Session) (L : Ledger) (tok : Address)
    (amount : List Char) :
    ((resumeEscrow cfg L)^[6] (startEscrow s tok amount)).stage =
        .done (escrowFunds cfg s L tok amount).1 ∧
      ((resumeEscrow cfg L)^[6] (startEscrow s tok amount)).trace =
        (escrowFunds cfg s L tok amount).2 := by
  simp only [Function.iterate_succ, Function.iterate_zero, Function.comp, id]
  by_cases hg : (s.orderBookContract.isNone || !s.isActive) = true
  · simp [startEscrow, escrowFunds, hg, resumeEscrow, Op.pure]
  cases hp : s.provider with
  | none =>
    simp [startEscrow, escrowFunds, escrowTry, hg, hp, getSigner, resumeEscrow,
      EscrowIntent.fail, bind, Op.bind, Op.lift, Op.tryCatch, escrowCatch_eq, Op.pure]
  | some p =>
  cases hdec : L.decimals tok with
  | error e =>
    simp [startEscrow, escrowFunds, escrowTry, hg, hp, hdec, getSigner, resumeEscrow,
      EscrowIntent.fail, EscrowIntent.suspend, bind, Op.bind, Op.lift, Op.call, Op.tryCatch,
      escrowCatch_eq, Op.pure]
  | ok d =>
  cases hraw : parseUnits amount d with
  | error e =>
    simp [startEscrow, escrowFunds, escrowTry, hg, hp, hdec, hraw, getSigner, resumeEscrow,
      EscrowIntent.fail, EscrowIntent.suspend, bind, Op.bind, Op.lift, Op.call, Op.tryCatch,
      escrowCatch_eq, Op.pure]
  | ok raw =>
  cases hbal : L.balanceOf tok s.account with
  | error e =>
    simp [startEscrow, escrowFunds, escrowTry, hg, hp, hdec, hraw, hbal, getSigner,
      resumeEscrow, EscrowIntent.fail, EscrowIntent.suspend, bind, Op.bind, Op.lift, Op.call,
      Op.tryCatch, escrowCatch_eq, Op.pure]
  | ok bal =>
  cases hfmt : formatUnits (bal : Int) d with
  | error e =>
    simp [startEscrow, escrowFunds, escrowTry, hg, hp, hdec, hraw, hbal, hfmt, getSigner,
      resumeEscrow, EscrowIntent.fail, EscrowIntent.suspend, bind, Op.bind, Op.lift, Op.call,
      Op.tryCatch, escrowCatch_eq, Op.pure]
  | ok shown =>
  by_cases hlt : (bal : Int) < raw
  · simp [startEscrow, escrowFunds, escrowTry, hg, hp, hdec, hraw, hbal, hfmt, hlt, getSigner,
      resumeEscrow, EscrowIntent.fail, EscrowIntent.suspend, bind, Op.bind, Op.lift, Op.call,
      Op.throw, Op.tryCatch, escrowCatch_eq, Op.pure]
  cases happ : L.approve tok cfg.P2P_ORDERBOOK_ADDRESS raw with
  | error e =>
    simp [startEscrow, escrowFunds, escrowTry, hg, hp, hdec, hraw, hbal, hfmt, hlt, happ,
      getSigner, resumeEscrow, EscrowIntent.fail, EscrowIntent.suspend, bind, Op.bind,
      Op.lift, Op.call, Op.throw, Op.tryCatch, escrowCatch_eq, Op.pure]
  | ok approveTx =>
  cases hw1 : L.wait approveTx with
  | error e =>
    simp [startEscrow, escrowFunds, escrowTry, hg, hp, hdec, hraw, hbal, hfmt, hlt, happ, hw1,
      getSigner, resumeEscrow, EscrowIntent.fail, EscrowIntent.suspend, bind, Op.bind,
      Op.lift, Op.call, Op.throw, Op.tryCatch, escrowCatch_eq, Op.pure]
  | ok r1 =>
  cases hesc : L.escrow tok raw with
  | error e =>
    simp [startEscrow, escrowFunds, escrowTry, hg, hp, hdec, hraw, hbal, hfmt, hlt, happ, hw1,
      hesc, getSigner, resumeEscrow, EscrowIntent.fail, EscrowIntent.suspend, bind, Op.bind,
      Op.lift, Op.call, Op.throw, Op.tryCatch, escrowCatch_eq, Op.pure]
  | ok tx =>
  cases hw2 : L.wait tx with
  | error e =>
    simp [startEscrow, escrowFunds, escrowTry, hg, hp, hdec, hraw, hbal, hfmt, hlt, happ, hw1,
      hesc, hw2, getSigner, resumeEscrow, EscrowIntent.fail, EscrowIntent.suspend, bind,
      Op.bind, Op.lift, Op.call, Op.throw, Op.tryCatch, escrowCatch_eq, Op.pure]
  | ok receipt =>
    simp [startEscrow, escrowFunds, escrowTry, hg, hp, hdec, hraw, hbal, hfmt, hlt, happ, hw1,
      hesc, hw2, getSigner, resumeEscrow, EscrowIntent.fail, EscrowIntent.suspend, bind,
      Op.bind, Op.lift, Op.call, Op.throw, Op.tryCatch, escrowCatch_eq, Op.pure]

theorem resumeEscrow_iterate_ge_six (cfg : Config) (s : Session) (L : Ledger) (tok : Address)
    (amount : List Char) (n : Nat) (hn : 6 ≤ n) :
    (resumeEscrow cfg L)^[n] (startEscrow s tok amount) =
      (resumeEscrow cfg L)^[6] (startEscrow s tok amount) := by
  obtain ⟨k, rfl⟩ : ∃ k, n = k + 6 := ⟨n - 6, by omega⟩
  rw [Function.iterate_add_apply]
  exact iterate_resumeEscrow_done cfg L k _ _ (resumeEscrow_six cfg s L tok amount).1

/-- The pending call of a run depends only on how many times it was resumed. -/
theorem run_pending (cfg : Config) (L : Ledger) (steps : List Step) :
    ∀ m : Machine, (m.run cfg L steps).pending =
      m.pending.map ((resumeEscrow cfg L)^[steps.count .resume]) := by
  induction steps with
  | nil => intro m; simp [Machine.run]
  | cons st rest ih =>
    intro m
    have hrun : m.run cfg L (st :: rest) = (m.step cfg L st).run cfg L rest := rfl
    rw [hrun, ih]
    cases st with
    | resume =>
      simp only [Machine.step, List.count_cons_self, Option.map_map]
      congr 1
    | accountsChanged accounts =>
      have hne : (Step.accountsChanged accounts == Step.resume) = false := by
        simp
      simp [Machine.step, List.count_cons, hne]

/-- C7 (as stated, refuted): the account changes from `0xA` to `0xB` while an escrow call
started by `0xA` is suspended after its balance read; the call is not invalidated: it
goes on to submit `approve` and `escrow` and resolves with the receipt. -/
theorem escrow_call_survives_account_change :
    ((Machine.call sampleSession "0xT" tenAndHalf).run sampleConfig (sampleLedger 20000000 0)
        [.resume, .resume, .accountsChanged ["0xB"], .resume, .resume, .resume,
          .resume]).session.account = some "0xB" ∧
    (((Machine.call sampleSession "0xT" tenAndHalf).run sampleConfig (sampleLedger 20000000 0)
        [.resume, .resume]).pending.map (fun i => i.trace)) =
      some [.decimals "0xT", .balanceOf "0xT" (some "0xA"),
        .approve "0xT" "0xBOOK" 10500000] ∧
    (((Machine.call sampleSession "0xT" tenAndHalf).run sampleConfig (sampleLedger 20000000 0)
        [.resume, .resume, .accountsChanged ["0xB"], .resume, .resume, .resume,
          .resume]).pending.map (fun i => (i.stage, i.trace))) =
      some (.done (.ok (some ⟨102⟩)),
        [.decimals "0xT", .balanceOf "0xT" (some "0xA"), .approve "0xT" "0xBOOK" 10500000,
          .wait ⟨1⟩, .escrow "0xT" 10500000, .wait ⟨2⟩]) := by
  decide

/-- C7 (amended): an account change while an escrow call is in flight only updates the
state of the provider component; it does not reach the call.  Whatever account changes
are interleaved with its resumptions, once its six awaited calls have settled the call
has finished with exactly the outcome and the trace of `escrowFunds` run uninterrupted
on the session captured when it started. -/
theorem escrow_call_unaffected_by_account_change (cfg : Config) (L : Ledger) (s : Session)
    (tok : Address) (amount : List Char) (steps : List Step)
    (hn : 6 ≤ steps.count .resume) :
    ((Machine.call s tok amount).run cfg L steps).pending.map (fun i => (i.stage, i.trace)) =
      some (.done (escrowFunds cfg s L tok amount).1, (escrowFunds cfg s L tok amount).2) := by
  rw [run_pending]
  simp only [Machine.call, Option.map_some']
  rw [resumeEscrow_iterate_ge_six cfg s L tok amount _ hn]
  obtain ⟨h1, h2⟩ := resumeEscrow_six cfg s L tok amount
  rw [h1, h2]

/-- Witness of C7 (amended): the run with the account change after the balance read. -/
theorem escrow_call_unaffected_by_account_change_witness :
    ((Machine.call sampleSession "0xT" tenAndHalf).run sampleConfig (sampleLedger 20000000 0)
        [.resume, .resume, .accountsChanged ["0xB"], .resume, .resume, .resume,
          .resume]).pending.map (fun i => (i.stage, i.trace)) =
      some (.done (escrowFunds sampleConfig sampleSession (sampleLedger 20000000 0) "0xT"
          tenAndHalf).1,
        (escrowFunds sampleConfig sampleSession (sampleLedger 20000000 0) "0xT" tenAndHalf).2) :=
  escrow_call_unaffected_by_account_change sampleConfig (sampleLedger 20000000 0)
    sampleSession "0xT" tenAndHalf
    [.resume, .resume, .accountsChanged ["0xB"], .resume, .resume, .resume, .resume]
    (by decide)

/-! ## The order API client -/

/-- One POST, and the outcome is the transport's: `response.data` when it resolved, the
very error when it rejected. -/
theorem postAndReturnData_spec {V D : Type} (T : Transport V D) (request : Request V)
    (label : String) :
    posts (postAndReturnData T request label).2 = [request] ∧
      (postAndReturnData T request label).1 = (T request).map (fun response => response.data) := by
  unfold postAndReturnData
  cases h : T request with
  | error e =>
    simp [h, bind, Op.bind, Op.call, Op.tryCatch, Op.emit, Op.throw, Op.pure, posts, Except.map]
  | ok response =>
    simp [h, bind, Op.bind, Op.call, Op.tryCatch, Op.pure, posts, Except.map]

/-- C8: each of `placeLimitOrder`, `cancelOrder`, `getOrderBook` and `initiateWithdrawal`
issues exactly one POST, to its configured endpoint and with its own body, whether the
request succeeds or fails; its outcome is that of the transport: `response.data` when
the POST resolved, and the same error value (status and body included) when it
rejected. -/
theorem orderApi_single_post {V D : Type} (ep : Endpoints) (T : Transport V D)
    (account price quantity side baseAsset quoteAsset orderId symbol asset amount : V) :
    (posts (placeLimitOrder ep T account price quantity side baseAsset quoteAsset).2 =
        [{ url := ep.limitOrder,
           body := .json [("account", account), ("price", price), ("quantity", quantity),
             ("side", side), ("baseAsset", baseAsset), ("quoteAsset", quoteAsset)],
           headers := [] }] ∧
      (placeLimitOrder ep T account price quantity side baseAsset quoteAsset).1 =
        (T { url := ep.limitOrder,
             body := .json [("account", account), ("price", price), ("quantity", quantity),
               ("side", side), ("baseAsset", baseAsset), ("quoteAsset", quoteAsset)],
             headers := [] }).map (fun response => response.data)) ∧
    (posts (cancelOrder ep T orderId side baseAsset quoteAsset).2 =
        [{ url := ep.cancelOrder,
           body := .json [("orderId", orderId), ("side", side), ("baseAsset", baseAsset),
             ("quoteAsset", quoteAsset)],
           headers := [] }] ∧
      (cancelOrder ep T orderId side baseAsset quoteAsset).1 =
        (T { url := ep.cancelOrder,
             body := .json [("orderId", orderId), ("side", side), ("baseAsset", baseAsset),
               ("quoteAsset", quoteAsset)],
             headers := [] }).map (fun response => response.data)) ∧
    (posts (getOrderBook ep T symbol).2 =
        [{ url := ep.orderBook,
           body := .formData [("payload", [("symbol", symbol)])],
           headers := [("Content-Type", "multipart/form-data")] }] ∧
      (getOrderBook ep T symbol).1 =
        (T { url := ep.orderBook,
             body := .formData [("payload", [("symbol", symbol)])],
             headers := [("Content-Type", "multipart/form-data")] }).map
          (fun response => response.data)) ∧
    (posts (initiateWithdrawal ep T account asset amount).2 =
        [{ url := ep.initiateWithdrawal,
           body := .json [("account", account), ("asset", asset), ("amount", amount)],
           headers := [] }] ∧
      (initiateWithdrawal ep T account asset amount).1 =
        (T { url := ep.initiateWithdrawal,
             body := .json [("account", account), ("asset", asset), ("amount", amount)],
             headers := [] }).map (fun response => response.data)) :=
  ⟨postAndReturnData_spec T _ _, postAndReturnData_spec T _ _, postAndReturnData_spec T _ _,
    postAndReturnData_spec T _ _⟩

/-! ## Error propagation of the context operations -/

/-- C9 (as stated, refuted): when `metaMask.activate()` and `metaMask.resetState()` raise
an error, `connectWallet` and `disconnectWallet` log it and return normally. -/
theorem connectWallet_swallows_error :
    failingConnector.activate = .error sampleError ∧
    connectWallet failingConnector =
      (.ok (), [.setLoading true, .activate,
        .consoleError "Error connecting wallet:" sampleError, .setLoading false]) ∧
    failingConnector.resetState = .error sampleError ∧
    disconnectWallet failingConnector =
      (.ok (), [.resetState, .consoleError "Error disconnecting wallet:" sampleError]) := by
  decide

/-- C9 (amended): `escrowFunds` and `getEscrowBalance` reject with the very error of the
first ledger call that fails (after logging it); `connectWallet` and `disconnectWallet`
catch the error of the connector call, log it, and return normally. -/
theorem ledger_errors_rethrown_wallet_errors_logged (cfg : Config) (s : Session) (L : Ledger)
    (W : WalletConnector) (tok : Address) (amount : List Char) (e : JsError)
    (hc : s.connected = true) :
    (L.decimals tok = .error e → (escrowFunds cfg s L tok amount).1 = .error e) ∧
    (∀ d raw, L.decimals tok = .ok d → parseUnits amount d = .ok raw →
      L.balanceOf tok s.account = .error e → (escrowFunds cfg s L tok amount).1 = .error e) ∧
    (∀ d raw bal, L.decimals tok = .ok d → parseUnits amount d = .ok raw →
      L.balanceOf tok s.account = .ok bal → raw ≤ (bal : Int) →
      (L.approve tok cfg.P2P_ORDERBOOK_ADDRESS raw = .error e →
        (escrowFunds cfg s L tok amount).1 = .error e) ∧
      (∀ approveTx, L.approve tok cfg.P2P_ORDERBOOK_ADDRESS raw = .ok approveTx →
        (L.wait approveTx = .error e → (escrowFunds cfg s L tok amount).1 = .error e) ∧
        (∀ r1, L.wait approveTx = .ok r1 →
          (L.escrow tok raw = .error e → (escrowFunds cfg s L tok amount).1 = .error e) ∧
          (∀ tx, L.escrow tok raw = .ok tx → L.wait tx = .error e →
            (escrowFunds cfg s L tok amount).1 = .error e)))) ∧
    (L.escrowedFunds s.account tok = .error e → (getEscrowBalance s L tok).1 = .error e) ∧
    (∀ funds, L.escrowedFunds s.account tok = .ok funds → L.decimals tok = .error e →
      (getEscrowBalance s L tok).1 = .error e) ∧
    (W.activate = .error e →
      connectWallet W = (.ok (), [.setLoading true, .activate,
        .consoleError "Error connecting wallet:" e, .setLoading false])) ∧
    (W.resetState = .error e →
      disconnectWallet W = (.ok (), [.resetState,
        .consoleError "Error disconnecting wallet:" e])) := by
  obtain ⟨p, hp⟩ := provider_of_connected s hc
  have hE := escrowFunds_connected cfg s L tok amount hc
  have hB := getEscrowBalance_connected s L tok hc
  refine ⟨?_, ?_, ?_, ?_, ?_, ?_, ?_⟩
  · intro hdec
    rw [hE]
    simp [escrowTry, hp, getSigner, hdec, bind, Op.bind, Op.lift, Op.call, Op.tryCatch,
      escrowCatch_eq, Op.pure]
  · intro d raw hdec hraw hbal
    rw [hE]
    simp [escrowTry, hp, getSigner, hdec, hraw, hbal, bind, Op.bind, Op.lift, Op.call,
      Op.tryCatch, escrowCatch_eq, Op.pure]
  · intro d raw bal hdec hraw hbal hsuff
    have hpre := escrowFunds_prefix cfg s L tok amount d raw bal hc hdec hraw hbal hsuff
    refine ⟨?_, ?_⟩
    · intro happ
      rw [hpre]
      simp [happ, bind, Op.bind, Op.call, Op.tryCatch, escrowCatch_eq, Op.pure]
    · intro approveTx happ
      refine ⟨?_, ?_⟩
      · intro hw1
        rw [hpre]
        simp [happ, hw1, bind, Op.bind, Op.call, Op.tryCatch, escrowCatch_eq, Op.pure]
      · intro r1 hw1
        refine ⟨?_, ?_⟩
        · intro hesc
          rw [hpre]
          simp [happ, hw1, hesc, bind, Op.bind, Op.call, Op.tryCatch, escrowCatch_eq, Op.pure]
        · intro tx hesc hw2
          rw [hpre]
          simp [happ, hw1, hesc, hw2, bind, Op.bind, Op.call, Op.tryCatch, escrowCatch_eq,
            Op.pure]
  · intro hfunds
    rw [hB]
    simp [balanceTry, hp, getSigner, hfunds, bind, Op.bind, Op.lift, Op.call, Op.tryCatch,
      balanceCatch_eq, Op.pure]
  · intro funds hfunds hdec
    rw [hB]
    simp [balanceTry, hp, getSigner, hfunds, hdec, bind, Op.bind, Op.lift, Op.call,
      Op.tryCatch, balanceCatch_eq, Op.pure]
  · intro hact
    simp [connectWallet, hact, bind, Op.bind, Op.call, Op.emit, Op.tryCatch, Op.tryFinally]
  · intro hres
    simp [disconnectWallet, hres, Op.call, Op.emit, Op.tryCatch]

/-- Witness of C9 (amended): the ledger whose `escrow` call is rejected, and the
connector whose calls are rejected. -/
theorem ledger_errors_rethrown_wallet_errors_logged_witness :
    (escrowFunds sampleConfig sampleSession escrowFailsLedger "0xT" tenAndHalf).1 =
      .error sampleError ∧
    connectWallet failingConnector =
      (.ok (), [.setLoading true, .activate,
        .consoleError "Error connecting wallet:" sampleError, .setLoading false]) :=
  ⟨((((ledger_errors_rethrown_wallet_errors_logged sampleConfig sampleSession
      escrowFailsLedger failingConnector "0xT" tenAndHalf sampleError (by decide)).2.2.1
      6 10500000 20000000 rfl (by decide) rfl (by decide)).2 ⟨1⟩ rfl).2 ⟨101⟩ rfl).1 rfl,
   (ledger_errors_rethrown_wallet_errors_logged sampleConfig sampleSession
      escrowFailsLedger failingConnector "0xT" tenAndHalf sampleError (by decide)).2.2.2.2.2.1
      rfl⟩

/-! ## The network advisory -/

/-- C10 (the code at the failing inputs): when a wallet is activated on chain 1 while the
configured chain is 80002, the first commit sets the advisory `networkError`; once the
effects have settled, and again after a later account change, the session is active on
the wrong chain and the advisory is empty: the contract-initialisation effect, re-run
because `account` changed, cleared the text that the network-check effect had set, and
the network-check effect did not run again. -/
theorem network_advisory_cleared :
    (commitEffects sampleConfig (some initialSession)
      { initialSession with
        chainId := some 1
        accounts := some ["0xA"]
        isActive := true
        provider := some ⟨1⟩ }).networkError = networkMessage sampleConfig ∧
    (afterEvents sampleConfig [.activated 1 ["0xA"] ⟨1⟩]).settled sampleConfig = true ∧
    (afterEvents sampleConfig [.activated 1 ["0xA"] ⟨1⟩]).cur.isActive = true ∧
    (afterEvents sampleConfig [.activated 1 ["0xA"] ⟨1⟩]).cur.chainId ≠
      some sampleConfig.CHAIN_ID ∧
    (afterEvents sampleConfig [.activated 1 ["0xA"] ⟨1⟩]).cur.networkError = "" ∧
    (afterEvents sampleConfig
      [.activated 1 ["0xA"] ⟨1⟩, .accountsChanged ["0xB"]]).settled sampleConfig = true ∧
    (afterEvents sampleConfig
      [.activated 1 ["0xA"] ⟨1⟩, .accountsChanged ["0xB"]]).cur.isActive = true ∧
    (afterEvents sampleConfig
      [.activated 1 ["0xA"] ⟨1⟩, .accountsChanged ["0xB"]]).cur.account = some "0xB" ∧
    (afterEvents sampleConfig
      [.activated 1 ["0xA"] ⟨1⟩, .accountsChanged ["0xB"]]).cur.networkError = "" := by
  decide

end SwapBook
